import Mathlib

/-!
Verification development for the VS Code devcontainer control-plane service
(`devcontainer-api/app/main.py`).  The Python service is shallowly embedded:
the orchestrator (Kubernetes) is modelled as an explicit store of named
objects, every API call of the service becomes a pure function threading that
store, and the asynchronous background build jobs become functions from a
build environment (docker reachability, build tool exit code, captured log
lines) to the final store.  Randomness (uuid4) is passed in as explicit byte
lists.
-/

set_option linter.unusedVariables false

namespace DevcontainerApi

/-! ## Configuration constants (module-level constants of `main.py`, at their
environment defaults: not running in-cluster, so push and pull registry both
equal the `REGISTRY` default). -/

def NAMESPACE : String := "vscode-system"

def BASE_NAME : String := "vscode-server"

def BASE_DOMAIN : String := "vscode.local"

def REGISTRY : String := "localhost:32000"

def PUSH_REGISTRY : String := REGISTRY

def PULL_REGISTRY : String := REGISTRY

def DEFAULT_STORAGE_SIZE : String := "2Gi"

def DEFAULT_SHARED_STORAGE_SIZE : String := "5Gi"

def DEFAULT_MEMORY_REQUEST : String := "512Mi"

def DEFAULT_MEMORY_LIMIT : String := "2Gi"

def DEFAULT_CPU_REQUEST : String := "200m"

def DEFAULT_CPU_LIMIT : String := "1000m"

def DEFAULT_BASE_IMAGE : String := "ubuntu:22.04"

def API_PATH_PREFIX : String := "/api"

def INSTANCES_PATH_PREFIX : String := "/instances"

/-! ## Naming and token service

`uuid.uuid4().hex` is the lowercase hexadecimal rendering of the 16 bytes of
a random UUID; we model the random bytes as an explicit `List Nat` argument
and the `.hex` rendering as `bytesToHex`. -/

/-- Lowercase hexadecimal digit for a nibble (the value is reduced mod 16, so
the function is total; callers always pass values below 16). -/
def hexDigitChar (n : Nat) : Char :=
  match n % 16 with
  | 0 => '0' | 1 => '1' | 2 => '2' | 3 => '3' | 4 => '4'
  | 5 => '5' | 6 => '6' | 7 => '7' | 8 => '8' | 9 => '9'
  | 10 => 'a' | 11 => 'b' | 12 => 'c' | 13 => 'd' | 14 => 'e'
  | _ => 'f'

/-- Two lowercase hex digits of one byte. -/
def byteToHexChars (b : Nat) : List Char :=
  [hexDigitChar (b / 16), hexDigitChar (b % 16)]

def bytesToHexChars : List Nat → List Char
  | [] => []
  | b :: bs => byteToHexChars b ++ bytesToHexChars bs

/-- Lowercase hexadecimal rendering of a byte string (Python `bytes.hex()` /
`uuid4().hex`). -/
def bytesToHex (bs : List Nat) : String :=
  String.mk (bytesToHexChars bs)

/-- Python `generate_instance_id`: `f"{user_id}-{uuid.uuid4().hex[:8]}"`.
The first eight hex characters of the UUID are the hex rendering of its first
four bytes, passed here as `suffixBytes`. -/
def generate_instance_id (user_id : String) (suffixBytes : List Nat) : String :=
  user_id ++ "-" ++ bytesToHex suffixBytes

/-- Python `generate_access_token`: `uuid.uuid4().hex`, the lowercase hex of
the sixteen UUID bytes, passed here as `tokenBytes`. -/
def generate_access_token (tokenBytes : List Nat) : String :=
  bytesToHex tokenBytes

/-- Python `generate_instance_path`. -/
def generate_instance_path (instance_id : String) : String :=
  INSTANCES_PATH_PREFIX ++ "/" ++ instance_id

/-- Character class of lowercase hexadecimal digits. -/
def isLowerHexChar (c : Char) : Bool :=
  c = '0' ∨ c = '1' ∨ c = '2' ∨ c = '3' ∨ c = '4' ∨ c = '5' ∨ c = '6' ∨
  c = '7' ∨ c = '8' ∨ c = '9' ∨ c = 'a' ∨ c = 'b' ∨ c = 'c' ∨ c = 'd' ∨
  c = 'e' ∨ c = 'f'

/-! ## Base-image validation

Python `VSCodeServerRequest.validate_base_image` applies
`re.match` with the pattern `^[a-zA-Z0-9][-a-zA-Z0-9_./:]*$`.  In Python `$` also
matches just before one trailing newline, which `validate_base_image`
reproduces. -/

def isBaseImageFirstChar (c : Char) : Bool :=
  c.isAlpha || c.isDigit

def isBaseImageRestChar (c : Char) : Bool :=
  c = '-' || c.isAlpha || c.isDigit || c = '_' || c = '.' || c = '/' || c = ':'

def matchesBaseImageCore (cs : List Char) : Bool :=
  match cs with
  | [] => false
  | c :: rest => isBaseImageFirstChar c && rest.all isBaseImageRestChar

def validate_base_image (v : String) : Bool :=
  matchesBaseImageCore v.data ||
    (v.data.getLast? = some '\n' && matchesBaseImageCore v.data.dropLast)

/-- FastAPI maps a pydantic request-model validation failure
(`RequestValidationError`) to HTTP 422 Unprocessable Entity; this is fixed
framework behaviour, the application installs no custom handler. -/
def REQUEST_VALIDATION_ERROR_STATUS : Nat := 422

/-! ## The orchestrator store

The Kubernetes namespace is modelled as explicit lists of the objects the
service manipulates, one list per kind.  Every create and delete appends an
event to a trace so ordering properties can be stated.  Each client call
either succeeds with the updated store or fails with an `ApiErr` carrying the
HTTP status (404 not found, 409 already exists) and leaves the store
unchanged, exactly like a failed REST call against the cluster. -/

inductive Kind
  | configMap
  | pvc
  | deployment
  | service
  | ingress
deriving DecidableEq, Repr

inductive Event
  | created (k : Kind) (n : String)
  | deleted (k : Kind) (n : String)
deriving DecidableEq, Repr

/-- Key/value data of a ConfigMap (a Python string dict, insertion ordered). -/
abbrev Data := List (String × String)

structure St where
  configMaps : List (String × Data)
  /-- Persistent volume claims: name and requested storage size. -/
  pvcs : List (String × String)
  /-- Deployments: name, container image, available replicas of the status. -/
  deployments : List (String × String × Option Nat)
  services : List String
  ingresses : List String
  trace : List Event
deriving DecidableEq, Repr

def emptySt : St := ⟨[], [], [], [], [], []⟩

structure ApiErr where
  status : Nat
deriving DecidableEq, Repr

/-- First association for a name in a ConfigMap list. -/
def findD (l : List (String × Data)) (n : String) : Option Data :=
  match l with
  | [] => none
  | (m, d) :: rest => if m = n then some d else findD rest n

/-- Replace the data stored under a name (Python dict field update through
the patch API). -/
def setD (l : List (String × Data)) (n : String) (d : Data) : List (String × Data) :=
  match l with
  | [] => []
  | (m, e) :: rest => if m = n then (m, d) :: rest else (m, e) :: setD rest n d

def removeD (l : List (String × Data)) (n : String) : List (String × Data) :=
  match l with
  | [] => []
  | (m, e) :: rest => if m = n then removeD rest n else (m, e) :: removeD rest n

/-- First deployment with a name. -/
def findDep (l : List (String × String × Option Nat)) (n : String) :
    Option (String × Option Nat) :=
  match l with
  | [] => none
  | (m, d) :: rest => if m = n then some d else findDep rest n

def removeDep (l : List (String × String × Option Nat)) (n : String) :
    List (String × String × Option Nat) :=
  match l with
  | [] => []
  | (m, e) :: rest => if m = n then removeDep rest n else (m, e) :: removeDep rest n

def removeS (l : List String) (n : String) : List String :=
  match l with
  | [] => []
  | m :: rest => if m = n then removeS rest n else m :: removeS rest n

/-- First persistent volume claim with a name. -/
def findP (l : List (String × String)) (n : String) : Option String :=
  match l with
  | [] => none
  | (m, sz) :: rest => if m = n then some sz else findP rest n

def removeP (l : List (String × String)) (n : String) : List (String × String) :=
  match l with
  | [] => []
  | (m, sz) :: rest => if m = n then removeP rest n else (m, sz) :: removeP rest n

/-- Lookup in a ConfigMap data dict (Python `dict.get`). -/
def lookupKV (d : Data) (k : String) : Option String :=
  match d with
  | [] => none
  | (k1, v) :: rest => if k1 = k then some v else lookupKV rest k

/-- Python dict assignment `d[k] = v`: replace if present, append otherwise. -/
def setKV (d : Data) (k v : String) : Data :=
  match d with
  | [] => [(k, v)]
  | (k1, v1) :: rest => if k1 = k then (k1, v) :: rest else (k1, v1) :: setKV rest k v

/-! ### Kubernetes object-name validation

The orchestrator is an external collaborator; its name validation is
modelled from the spec: object names must satisfy the orchestrator naming
rules, "lowercase alphanumerics, `-`, length ≤ 63" (the DNS-1123 label
rule).  The API server refuses to create an object under an invalid name
with 422 Unprocessable Entity; the service never validates names itself. -/

def isAlnumLower (c : Char) : Bool :=
  c.isLower || c.isDigit

def isDns1123LabelChar (c : Char) : Bool :=
  isAlnumLower c || c = '-'

/-- Modelled from the spec: the orchestrator naming rules for object names —
nonempty, at most 63 characters, lowercase alphanumerics and `-`. -/
def isValidObjectName (n : String) : Bool :=
  1 ≤ n.length && n.length ≤ 63 && n.data.all isDns1123LabelChar

/-! ### Kubernetes client calls

Every create first runs the server-side name validation (422 on an invalid
name), then the conflict check (409 when the name exists). -/

def create_namespaced_config_map (s : St) (n : String) (d : Data) : Except ApiErr St :=
  if isValidObjectName n = false then .error ⟨422⟩
  else if (findD s.configMaps n).isSome then .error ⟨409⟩
  else .ok { s with
    configMaps := s.configMaps ++ [(n, d)],
    trace := s.trace ++ [.created .configMap n] }

def read_namespaced_config_map (s : St) (n : String) : Except ApiErr Data :=
  match findD s.configMaps n with
  | some d => .ok d
  | none => .error ⟨404⟩

def patch_namespaced_config_map (s : St) (n : String) (d : Data) : Except ApiErr St :=
  if (findD s.configMaps n).isSome then
    .ok { s with configMaps := setD s.configMaps n d }
  else .error ⟨404⟩

def delete_namespaced_config_map (s : St) (n : String) : Except ApiErr St :=
  if (findD s.configMaps n).isSome then
    .ok { s with
      configMaps := removeD s.configMaps n,
      trace := s.trace ++ [.deleted .configMap n] }
  else .error ⟨404⟩

def create_namespaced_persistent_volume_claim (s : St) (n storage_size : String) :
    Except ApiErr St :=
  if isValidObjectName n = false then .error ⟨422⟩
  else if (findP s.pvcs n).isSome then .error ⟨409⟩
  else .ok { s with
    pvcs := s.pvcs ++ [(n, storage_size)],
    trace := s.trace ++ [.created .pvc n] }

def read_namespaced_persistent_volume_claim (s : St) (n : String) :
    Except ApiErr String :=
  match findP s.pvcs n with
  | some sz => .ok sz
  | none => .error ⟨404⟩

def delete_namespaced_persistent_volume_claim (s : St) (n : String) : Except ApiErr St :=
  if (findP s.pvcs n).isSome then
    .ok { s with
      pvcs := removeP s.pvcs n,
      trace := s.trace ++ [.deleted .pvc n] }
  else .error ⟨404⟩

def create_namespaced_deployment (s : St) (n image : String) : Except ApiErr St :=
  if isValidObjectName n = false then .error ⟨422⟩
  else if (findDep s.deployments n).isSome then .error ⟨409⟩
  else .ok { s with
    deployments := s.deployments ++ [(n, image, none)],
    trace := s.trace ++ [.created .deployment n] }

/-- Reads `deployment.status.available_replicas`. -/
def read_namespaced_deployment_status (s : St) (n : String) :
    Except ApiErr (Option Nat) :=
  match findDep s.deployments n with
  | some (_, r) => .ok r
  | none => .error ⟨404⟩

def delete_namespaced_deployment (s : St) (n : String) : Except ApiErr St :=
  if (findDep s.deployments n).isSome then
    .ok { s with
      deployments := removeDep s.deployments n,
      trace := s.trace ++ [.deleted .deployment n] }
  else .error ⟨404⟩

def create_namespaced_service (s : St) (n : String) : Except ApiErr St :=
  if isValidObjectName n = false then .error ⟨422⟩
  else if s.services.contains n then .error ⟨409⟩
  else .ok { s with
    services := s.services ++ [n],
    trace := s.trace ++ [.created .service n] }

def delete_namespaced_service (s : St) (n : String) : Except ApiErr St :=
  if s.services.contains n then
    .ok { s with
      services := removeS s.services n,
      trace := s.trace ++ [.deleted .service n] }
  else .error ⟨404⟩

def create_namespaced_ingress (s : St) (n : String) : Except ApiErr St :=
  if isValidObjectName n = false then .error ⟨422⟩
  else if s.ingresses.contains n then .error ⟨409⟩
  else .ok { s with
    ingresses := s.ingresses ++ [n],
    trace := s.trace ++ [.created .ingress n] }

def delete_namespaced_ingress (s : St) (n : String) : Except ApiErr St :=
  if s.ingresses.contains n then
    .ok { s with
      ingresses := removeS s.ingresses n,
      trace := s.trace ++ [.deleted .ingress n] }
  else .error ⟨404⟩

/-! ## Application data model -/

/-- Raised `fastapi.HTTPException`: status code plus detail. -/
structure HExc where
  status : Nat
  detail : String
deriving DecidableEq, Repr

/-- Python `str(e)` of an `HTTPException`. -/
def hexcStr (e : HExc) : String :=
  toString e.status ++ ": " ++ e.detail

/-- The parsed devcontainer.json dict, restricted to the fields the service
reads (`create_configmap` reads `customizations.vscode.extensions`,
`customizations.vscode.settings` and `postCreateCommand`; the `image` field
is carried by the JSON but never read by the service). -/
structure DevcontainerCfg where
  image : Option String := none
  extensions : List String := []
  settings : List (String × String) := []
  postCreateCommand : Option String := none
deriving DecidableEq, Repr

/-- Abstraction of `json.dumps(vscode_config)` in `create_configmap`: a
deterministic rendering of the extensions list, settings map and optional
post-create command. -/
def encodeVSCodeConfig (exts : List String) (settings : List (String × String))
    (post : Option String) : String :=
  "extensions:" ++ String.intercalate "," exts ++
    ";settings:" ++ String.intercalate "," (settings.map (fun p => p.1 ++ "=" ++ p.2)) ++
    (match post with
     | some c => ";postCreateCommand:" ++ c
     | none => "")

/-- The data dict written by `create_configmap`. -/
def configMapData (access_token base_image : String) (devcontainer_image : Option String)
    (vscode_version : String) (devcontainer_config : Option DevcontainerCfg) : Data :=
  let vscodeCfg :=
    match devcontainer_config with
    | some cfg => encodeVSCodeConfig cfg.extensions cfg.settings cfg.postCreateCommand
    | none => encodeVSCodeConfig [] [] none
  [("PORT", "8000"),
   ("HOST", "0.0.0.0"),
   ("TOKEN", access_token),
   ("CLI_DATA_DIR", "/home/vscode/.vscode/cli-data"),
   ("USER_DATA_DIR", "/home/vscode/.vscode/user-data"),
   ("SERVER_DATA_DIR", "/home/vscode/.vscode/server-data"),
   ("EXTENSIONS_DIR", "/home/vscode/.vscode/extensions"),
   ("BASE_IMAGE", base_image),
   ("DEVCONTAINER_IMAGE", devcontainer_image.getD ""),
   ("VSCODE_VERSION", vscode_version),
   ("VSCODE_CONFIG", vscodeCfg)]

/-! ## Resource helper functions of the service

Each mirrors one Python helper.  A result `(s, some e)` is the store at the
moment an `HTTPException e` was raised; `(s, none)` is normal return. -/

/-- Python `ensure_shared_storage_pvc`: read the `<user_id>-shared` claim,
treat 404 as absent, create it then.  Any create failure raises 500. -/
def ensure_shared_storage_pvc (s : St) (user_id storage_size : String) : St × Option HExc :=
  let pvc_name := user_id ++ "-shared"
  match read_namespaced_persistent_volume_claim s pvc_name with
  | .ok _ => (s, none)
  | .error _ =>
    match create_namespaced_persistent_volume_claim s pvc_name storage_size with
    | .ok s1 => (s1, none)
    | .error _ => (s, some ⟨500, "Failed to create shared storage PVC"⟩)

/-- Python `create_configmap`. -/
def create_configmap (s : St) (instance_id access_token base_image : String)
    (devcontainer_image : Option String) (vscode_version : String)
    (devcontainer_config : Option DevcontainerCfg) : St × Option HExc :=
  match create_namespaced_config_map s (instance_id ++ "-config")
      (configMapData access_token base_image devcontainer_image vscode_version
        devcontainer_config) with
  | .ok s1 => (s1, none)
  | .error _ => (s, some ⟨500, "Failed to create ConfigMap"⟩)

/-- Python `create_workspace_pvc`. -/
def create_workspace_pvc (s : St) (instance_id storage_size : String) : St × Option HExc :=
  match create_namespaced_persistent_volume_claim s (instance_id ++ "-workspace")
      storage_size with
  | .ok s1 => (s1, none)
  | .error _ => (s, some ⟨500, "Failed to create workspace PVC"⟩)

/-- Python `create_deployment`: the container image is the devcontainer image
when one was built, the default base image otherwise.  The resource envelope,
install script and volume mounts of the pod template are not reflected in the
store. -/
def create_deployment (s : St)
    (instance_id user_id memory_request memory_limit cpu_request cpu_limit : String)
    (devcontainer_image : Option String) (vscode_version : String) : St × Option HExc :=
  let container_image := devcontainer_image.getD DEFAULT_BASE_IMAGE
  match create_namespaced_deployment s instance_id container_image with
  | .ok s1 => (s1, none)
  | .error _ => (s, some ⟨500, "Failed to create Deployment"⟩)

/-- Python `create_service`. -/
def create_service (s : St) (instance_id : String) : St × Option HExc :=
  match create_namespaced_service s (instance_id ++ "-service") with
  | .ok s1 => (s1, none)
  | .error _ => (s, some ⟨500, "Failed to create Service"⟩)

/-- Python `create_ingress_for_instance`: the ingress routes
`path_prefix/instance_id`; the rule itself is not reflected in the store. -/
def create_ingress_for_instance (s : St) (instance_id path_prefix : String) :
    St × Option HExc :=
  match create_namespaced_ingress s (instance_id ++ "-ingress") with
  | .ok s1 => (s1, none)
  | .error _ => (s, some ⟨500, "Failed to create Ingress"⟩)

/-- Python `get_instance_status`: `Running` iff the deployment reports at
least one available replica, `Pending` otherwise, `NotFound` when the
deployment is absent (in this model the read fails only with 404, so the
500 re-raise branch of the source is unreachable). -/
def get_instance_status (s : St) (instance_id : String) : String :=
  match read_namespaced_deployment_status s instance_id with
  | .ok (some n) => if n > 0 then "Running" else "Pending"
  | .ok none => "Pending"
  | .error _ => "NotFound"

/-- Inner per-ConfigMap try of `delete_instance_resources`: any
`ApiException` is swallowed. -/
def tryDeleteConfigMap (s : St) (n : String) : St :=
  match delete_namespaced_config_map s n with
  | .ok s1 => s1
  | .error _ => s

/-- Outer exception handler of `delete_instance_resources`: a 404 is logged
as a warning and the function returns normally; anything else raises 500. -/
def handleDeleteErr (e : ApiErr) (s : St) : St × Option HExc :=
  if e.status = 404 then (s, none)
  else (s, some ⟨500, "Failed to delete resources"⟩)

/-- Python `delete_instance_resources`: ingress, service, deployment, the two
ConfigMaps (each individually shielded), then the workspace claim — all
inside a single try whose handler tolerates 404.  An `ApiException` from any
unshielded step therefore abandons the remaining deletions. -/
def delete_instance_resources (s : St) (instance_id : String) : St × Option HExc :=
  match delete_namespaced_ingress s (instance_id ++ "-ingress") with
  | .error e => handleDeleteErr e s
  | .ok s1 =>
    match delete_namespaced_service s1 (instance_id ++ "-service") with
    | .error e => handleDeleteErr e s1
    | .ok s2 =>
      match delete_namespaced_deployment s2 instance_id with
      | .error e => handleDeleteErr e s2
      | .ok s3 =>
        let s4 := tryDeleteConfigMap s3 (instance_id ++ "-config")
        let s5 := tryDeleteConfigMap s4 (instance_id ++ "-build-logs")
        match delete_namespaced_persistent_volume_claim s5 (instance_id ++ "-workspace") with
        | .error e => handleDeleteErr e s5
        | .ok s6 => (s6, none)

/-! ## Image builder -/

/-- Environment of one background build: reachability of the docker daemon,
exit code and captured output of the devcontainer build tool, exit codes of
the push attempts, and the log timestamp. -/
structure BuildEnv where
  dockerOk : Bool
  buildExitCode : Nat
  buildLogs : List String
  pushExitCode : Nat
  pushOutput : List String
  retagExitCode : Nat
  retagPushExitCode : Nat
  timestamp : String
deriving DecidableEq, Repr

def listContainsSub (needle : List Char) : List Char → Bool
  | [] => needle.isEmpty
  | c :: rest => needle.isPrefixOf (c :: rest) || listContainsSub needle rest

/-- Python `needle in hay` on strings. -/
def strContains (hay needle : String) : Bool :=
  listContainsSub needle.data hay.data

/-- Python `build_devcontainer_image`.  Probes docker, runs the devcontainer
build (non-zero exit raises before anything is persisted), then tries the
push strategies: direct push, and — only when the push-image tag mentions
localhost while the push registry is a node address — retag and push again.
A failed push is downgraded to a warning line.  The build logs ConfigMap is
created only on this success path, any create failure being swallowed. -/
def build_devcontainer_image (s : St) (instance_id : String)
    (devcontainer_config : Option DevcontainerCfg) (env : BuildEnv) :
    St × Except String String :=
  if env.dockerOk = false then
    (s, .error "Docker daemon not accessible: Cannot connect to Docker daemon")
  else
    let push_image_name := PUSH_REGISTRY ++ "/vscode-devcontainer-" ++ instance_id ++ ":latest"
    let pull_image_name := PULL_REGISTRY ++ "/vscode-devcontainer-" ++ instance_id ++ ":latest"
    if env.buildExitCode ≠ 0 then
      (s, .error ("Build failed with return code " ++ toString env.buildExitCode))
    else
      let push_success :=
        if env.pushExitCode = 0 then true
        else if strContains push_image_name "localhost" &&
            (PUSH_REGISTRY != "localhost:32000") then
          env.retagExitCode = 0 && env.retagPushExitCode = 0
        else false
      let build_logs :=
        if push_success then env.buildLogs
        else env.buildLogs ++
          ["WARNING: Failed to push to registry, using local image: " ++ push_image_name]
      let logsData : Data :=
        [("logs", String.intercalate "\n" (build_logs ++ env.pushOutput)),
         ("timestamp", env.timestamp)]
      let s1 :=
        match create_namespaced_config_map s (instance_id ++ "-build-logs") logsData with
        | .ok s1 => s1
        | .error _ => s
      (s1, .ok pull_image_name)

/-! ## Build job tracker updates -/

def setKVs (d : Data) : List (String × String) → Data
  | [] => d
  | (k, v) :: rest => setKVs (setKV d k v) rest

/-- The one read of the `<id>-build-status` ConfigMap a background job does
on entry (the `status_cm` local): `none` when the read raised, in which case
every later update of the unbound local raises inside its own try and is
swallowed. -/
def readBuildStatusSnapshot (s : St) (instance_id : String) : Option Data :=
  match read_namespaced_config_map s (instance_id ++ "-build-status") with
  | .ok d => some d
  | .error _ => none

/-- One status update of a background job.  If the entry read failed the
update is a swallowed raise (`d = none`).  Otherwise the local dict is
mutated and patched; a failing patch is swallowed but the local mutation
persists. -/
def patchBuildStatus (s : St) (instance_id : String) (d : Option Data)
    (kvs : List (String × String)) : St × Option Data :=
  match d with
  | none => (s, none)
  | some dd =>
    let dd1 := setKVs dd kvs
    match patch_namespaced_config_map s (instance_id ++ "-build-status") dd1 with
    | .ok s1 => (s1, some dd1)
    | .error _ => (s, some dd1)

/-- The finally block of both background jobs: 300 seconds after the job
reaches a terminal state the build-status ConfigMap is deleted, any error
being swallowed.  The delay is a suspension point, so clients observe the
terminal state before this runs; it is therefore modelled as a separate
step. -/
def build_status_cleanup (s : St) (instance_id : String) : St :=
  tryDeleteConfigMap s (instance_id ++ "-build-status")

/-! ## Background build jobs -/

/-- The `build_config` dict assembled by `create_devcontainer_instance`. -/
structure BuildConfig where
  instance_id : String
  user_id : String
  devcontainer_config : DevcontainerCfg
  storage_size : String
  shared_storage_size : String
  memory_request : String
  memory_limit : String
  cpu_request : String
  cpu_limit : String
  vscode_version : String
  access_token : String
deriving DecidableEq, Repr

/-- Abstraction of `json.dumps(build_config)` stored in the tracker record;
never read back by the service. -/
def encodeBuildConfig (bc : BuildConfig) : String :=
  bc.instance_id ++ "|" ++ bc.user_id ++ "|" ++ bc.access_token

/-- Python `build_and_deploy_devcontainer`: mark `building`, build the image
(failure marks `failed` carrying the message), mark `deploying`, then the
creation cascade — shared claim, config record, workspace claim, workload,
service, ingress — and mark `completed`; an `HTTPException` from any cascade
step is caught by the outer handler and marks `failed`. -/
def build_and_deploy_devcontainer (s : St) (bc : BuildConfig) (env : BuildEnv) : St :=
  let instance_id := bc.instance_id
  let d0 := readBuildStatusSnapshot s instance_id
  match patchBuildStatus s instance_id d0 [("status", "building")] with
  | (s1, d1) =>
  match build_devcontainer_image s1 instance_id (some bc.devcontainer_config) env with
  | (s2, .error e) =>
    (patchBuildStatus s2 instance_id d1 [("status", "failed"), ("error", e)]).1
  | (s2, .ok devcontainer_image) =>
  match patchBuildStatus s2 instance_id d1 [("status", "deploying")] with
  | (s3, d2) =>
  match ensure_shared_storage_pvc s3 bc.user_id bc.shared_storage_size with
  | (s4, some e) =>
    (patchBuildStatus s4 instance_id d2 [("status", "failed"), ("error", hexcStr e)]).1
  | (s4, none) =>
  match create_configmap s4 instance_id bc.access_token DEFAULT_BASE_IMAGE
      (some devcontainer_image) bc.vscode_version (some bc.devcontainer_config) with
  | (s5, some e) =>
    (patchBuildStatus s5 instance_id d2 [("status", "failed"), ("error", hexcStr e)]).1
  | (s5, none) =>
  match create_workspace_pvc s5 instance_id bc.storage_size with
  | (s6, some e) =>
    (patchBuildStatus s6 instance_id d2 [("status", "failed"), ("error", hexcStr e)]).1
  | (s6, none) =>
  match create_deployment s6 instance_id bc.user_id bc.memory_request bc.memory_limit
      bc.cpu_request bc.cpu_limit (some devcontainer_image) bc.vscode_version with
  | (s7, some e) =>
    (patchBuildStatus s7 instance_id d2 [("status", "failed"), ("error", hexcStr e)]).1
  | (s7, none) =>
  match create_service s7 instance_id with
  | (s8, some e) =>
    (patchBuildStatus s8 instance_id d2 [("status", "failed"), ("error", hexcStr e)]).1
  | (s8, none) =>
  match create_ingress_for_instance s8 instance_id INSTANCES_PATH_PREFIX with
  | (s9, some e) =>
    (patchBuildStatus s9 instance_id d2 [("status", "failed"), ("error", hexcStr e)]).1
  | (s9, none) =>
    (patchBuildStatus s9 instance_id d2 [("status", "completed")]).1

/-- An uploaded workspace archive: either not a gzip-compressed tar at all,
or a list of contained files in directory-walk order.  For each file we keep
its base name and, when the name is devcontainer.json, the result of JSON
parsing (`none` = invalid JSON). -/
inductive Archive
  | notGzipTar
  | entries (fs : List (String × Option DevcontainerCfg))
deriving DecidableEq, Repr

/-- CPython `tarfile.ReadError` message for a stream that is not a tar. -/
def TAR_READ_ERROR_MSG : String := "file could not be opened successfully"

/-- CPython `json.JSONDecodeError` message for unparsable content. -/
def JSON_DECODE_ERROR_MSG : String := "Expecting value: line 1 column 1 (char 0)"

/-- The `os.walk` search of `build_and_deploy_workspace`: first file named
devcontainer.json anywhere in the extracted tree. -/
def find_devcontainer_json :
    List (String × Option DevcontainerCfg) → Option (Option DevcontainerCfg)
  | [] => none
  | (name, parsed) :: rest =>
    if name = "devcontainer.json" then some parsed else find_devcontainer_json rest

/-- The `build_config` dict assembled by `create_workspace_instance`. -/
structure WsBuildConfig where
  instance_id : String
  user_id : String
  workspace_content : Archive
  storage_size : String
  shared_storage_size : String
  memory_request : String
  memory_limit : String
  cpu_request : String
  cpu_limit : String
  vscode_version : String
  access_token : String
deriving DecidableEq, Repr

/-- Abstraction of the serialized workspace build config (the
`workspace_content` bytes are excluded by the source). -/
def encodeWsBuildConfig (bc : WsBuildConfig) : String :=
  bc.instance_id ++ "|" ++ bc.user_id ++ "|" ++ bc.access_token

/-- Python `build_and_deploy_workspace`: mark `building`, extract the
archive, locate and parse a devcontainer.json (failures mark `failed` with
the exception message), build, then the same creation cascade as the
devcontainer job. -/
def build_and_deploy_workspace (s : St) (bc : WsBuildConfig) (env : BuildEnv) : St :=
  let instance_id := bc.instance_id
  let d0 := readBuildStatusSnapshot s instance_id
  match patchBuildStatus s instance_id d0 [("status", "building")] with
  | (s1, d1) =>
  match bc.workspace_content with
  | .notGzipTar =>
    (patchBuildStatus s1 instance_id d1 [("status", "failed"), ("error", TAR_READ_ERROR_MSG)]).1
  | .entries fs =>
  match find_devcontainer_json fs with
  | none =>
    (patchBuildStatus s1 instance_id d1
      [("status", "failed"), ("error", "No devcontainer.json found in workspace")]).1
  | some none =>
    (patchBuildStatus s1 instance_id d1
      [("status", "failed"), ("error", JSON_DECODE_ERROR_MSG)]).1
  | some (some devcontainer_config) =>
  match build_devcontainer_image s1 instance_id none env with
  | (s2, .error e) =>
    (patchBuildStatus s2 instance_id d1 [("status", "failed"), ("error", e)]).1
  | (s2, .ok devcontainer_image) =>
  match patchBuildStatus s2 instance_id d1 [("status", "deploying")] with
  | (s3, d2) =>
  match ensure_shared_storage_pvc s3 bc.user_id bc.shared_storage_size with
  | (s4, some e) =>
    (patchBuildStatus s4 instance_id d2 [("status", "failed"), ("error", hexcStr e)]).1
  | (s4, none) =>
  match create_configmap s4 instance_id bc.access_token DEFAULT_BASE_IMAGE
      (some devcontainer_image) bc.vscode_version (some devcontainer_config) with
  | (s5, some e) =>
    (patchBuildStatus s5 instance_id d2 [("status", "failed"), ("error", hexcStr e)]).1
  | (s5, none) =>
  match create_workspace_pvc s5 instance_id bc.storage_size with
  | (s6, some e) =>
    (patchBuildStatus s6 instance_id d2 [("status", "failed"), ("error", hexcStr e)]).1
  | (s6, none) =>
  match create_deployment s6 instance_id bc.user_id bc.memory_request bc.memory_limit
      bc.cpu_request bc.cpu_limit (some devcontainer_image) bc.vscode_version with
  | (s7, some e) =>
    (patchBuildStatus s7 instance_id d2 [("status", "failed"), ("error", hexcStr e)]).1
  | (s7, none) =>
  match create_service s7 instance_id with
  | (s8, some e) =>
    (patchBuildStatus s8 instance_id d2 [("status", "failed"), ("error", hexcStr e)]).1
  | (s8, none) =>
  match create_ingress_for_instance s8 instance_id INSTANCES_PATH_PREFIX with
  | (s9, some e) =>
    (patchBuildStatus s9 instance_id d2 [("status", "failed"), ("error", hexcStr e)]).1
  | (s9, none) =>
    (patchBuildStatus s9 instance_id d2 [("status", "completed")]).1

/-! ## HTTP endpoints

Each endpoint function takes the store, the decoded request and the random
bytes consumed by this request, and returns the store, the HTTP status code
and the response payload.  The build-backed creates additionally return the
build config handed to the scheduled background task. -/

/-- Pydantic `VSCodeServerRequest` with its field defaults. -/
structure VSCodeServerRequest where
  user_id : String
  storage_size : String := DEFAULT_STORAGE_SIZE
  shared_storage_size : String := DEFAULT_SHARED_STORAGE_SIZE
  memory_request : String := DEFAULT_MEMORY_REQUEST
  memory_limit : String := DEFAULT_MEMORY_LIMIT
  cpu_request : String := DEFAULT_CPU_REQUEST
  cpu_limit : String := DEFAULT_CPU_LIMIT
  base_image : String := DEFAULT_BASE_IMAGE
  vscode_version : String := "1.97.2"
deriving DecidableEq, Repr

structure VSCodeServerResponse where
  instance_id : String
  url : String
  access_token : String
  status : String
  base_image : String
  devcontainer_image : Option String := none
  build_logs_url : Option String := none
deriving DecidableEq, Repr

/-- Handler body of `POST /instances/simple` (after request validation):
shared claim, then config record, workspace claim, workload, service,
ingress, then the 201 response. -/
def create_simple_instance (s : St) (request : VSCodeServerRequest)
    (suffixBytes tokenBytes : List Nat) : St × Except HExc VSCodeServerResponse :=
  let instance_id := generate_instance_id request.user_id suffixBytes
  let access_token := generate_access_token tokenBytes
  let path := generate_instance_path instance_id
  match ensure_shared_storage_pvc s request.user_id request.shared_storage_size with
  | (s1, some e) => (s1, .error e)
  | (s1, none) =>
  match create_configmap s1 instance_id access_token request.base_image none
      request.vscode_version none with
  | (s2, some e) => (s2, .error e)
  | (s2, none) =>
  match create_workspace_pvc s2 instance_id request.storage_size with
  | (s3, some e) => (s3, .error e)
  | (s3, none) =>
  match create_deployment s3 instance_id request.user_id request.memory_request
      request.memory_limit request.cpu_request request.cpu_limit none
      request.vscode_version with
  | (s4, some e) => (s4, .error e)
  | (s4, none) =>
  match create_service s4 instance_id with
  | (s5, some e) => (s5, .error e)
  | (s5, none) =>
  match create_ingress_for_instance s5 instance_id INSTANCES_PATH_PREFIX with
  | (s6, some e) => (s6, .error e)
  | (s6, none) =>
    let url := "https://" ++ BASE_DOMAIN ++ path ++ "?tkn=" ++ access_token
    (s6, .ok
      { instance_id := instance_id
        url := url
        access_token := access_token
        status := "Creating"
        base_image := request.base_image
        devcontainer_image := none
        build_logs_url := none })

/-- `POST /instances/simple` including the FastAPI request-model validation:
a base image rejected by `validate_base_image` never reaches the handler and
yields the framework validation status. -/
def post_instances_simple (s : St) (request : VSCodeServerRequest)
    (suffixBytes tokenBytes : List Nat) : St × Nat × Option VSCodeServerResponse :=
  if validate_base_image request.base_image then
    match create_simple_instance s request suffixBytes tokenBytes with
    | (s1, .ok r) => (s1, 201, some r)
    | (s1, .error e) => (s1, e.status, none)
  else (s, REQUEST_VALIDATION_ERROR_STATUS, none)

/-- Python `create_devcontainer_instance` (`POST /instances/devcontainer`):
parse the uploaded devcontainer.json (parse failure raises 400), persist the
queued tracker record, schedule the background build and answer 201 Queued
with the predicted image reference. -/
def create_devcontainer_instance (s : St) (user_id : String)
    (devcontainer_json : Option DevcontainerCfg)
    (storage_size shared_storage_size memory_request memory_limit cpu_request
      cpu_limit vscode_version : String)
    (suffixBytes tokenBytes : List Nat) :
    St × Nat × Option VSCodeServerResponse × Option BuildConfig :=
  let instance_id := generate_instance_id user_id suffixBytes
  let access_token := generate_access_token tokenBytes
  let path := generate_instance_path instance_id
  match devcontainer_json with
  | none => (s, 400, none, none)
  | some devcontainer_config =>
    let bc : BuildConfig :=
      { instance_id := instance_id
        user_id := user_id
        devcontainer_config := devcontainer_config
        storage_size := storage_size
        shared_storage_size := shared_storage_size
        memory_request := memory_request
        memory_limit := memory_limit
        cpu_request := cpu_request
        cpu_limit := cpu_limit
        vscode_version := vscode_version
        access_token := access_token }
    match create_namespaced_config_map s (instance_id ++ "-build-status")
        [("status", "queued"), ("config", encodeBuildConfig bc)] with
    | .error _ => (s, 500, none, none)
    | .ok s1 =>
      let url := "https://" ++ BASE_DOMAIN ++ path ++ "?tkn=" ++ access_token
      let build_logs_url := "https://" ++ BASE_DOMAIN ++ API_PATH_PREFIX ++
        "/instances/" ++ instance_id ++ "/build-logs"
      (s1, 201, some
        { instance_id := instance_id
          url := url
          access_token := access_token
          status := "Queued"
          base_image := DEFAULT_BASE_IMAGE
          devcontainer_image :=
            some (PULL_REGISTRY ++ "/vscode-devcontainer-" ++ instance_id ++ ":latest")
          build_logs_url := some build_logs_url },
        some bc)

/-- Python `create_workspace_instance` (`POST /instances/workspace`): the
uploaded archive bytes are saved unexamined, the queued tracker record is
persisted, the background build is scheduled and the endpoint answers 201
Queued; no validation of the archive happens on this synchronous path. -/
def create_workspace_instance (s : St) (user_id : String) (workspace : Archive)
    (storage_size shared_storage_size memory_request memory_limit cpu_request
      cpu_limit vscode_version : String)
    (suffixBytes tokenBytes : List Nat) :
    St × Nat × Option VSCodeServerResponse × Option WsBuildConfig :=
  let instance_id := generate_instance_id user_id suffixBytes
  let access_token := generate_access_token tokenBytes
  let path := generate_instance_path instance_id
  let bc : WsBuildConfig :=
    { instance_id := instance_id
      user_id := user_id
      workspace_content := workspace
      storage_size := storage_size
      shared_storage_size := shared_storage_size
      memory_request := memory_request
      memory_limit := memory_limit
      cpu_request := cpu_request
      cpu_limit := cpu_limit
      vscode_version := vscode_version
      access_token := access_token }
  match create_namespaced_config_map s (instance_id ++ "-build-status")
      [("status", "queued"), ("config", encodeWsBuildConfig bc)] with
  | .error _ => (s, 500, none, none)
  | .ok s1 =>
    let url := "https://" ++ BASE_DOMAIN ++ path ++ "?tkn=" ++ access_token
    let build_logs_url := "https://" ++ BASE_DOMAIN ++ API_PATH_PREFIX ++
      "/instances/" ++ instance_id ++ "/build-logs"
    (s1, 201, some
      { instance_id := instance_id
        url := url
        access_token := access_token
        status := "Queued"
        base_image := DEFAULT_BASE_IMAGE
        devcontainer_image :=
          some (PULL_REGISTRY ++ "/vscode-devcontainer-" ++ instance_id ++ ":latest")
        build_logs_url := some build_logs_url },
      some bc)

/-- Python `get_build_status` (`GET /instances/{id}/build-status`): read the
tracker record; on 404, `completed` is synthesized when the configuration
record exists, 404 is raised when it does not.  Result on success: the status
string and the optional error string. -/
def get_build_status (s : St) (instance_id : String) :
    Except Nat (String × Option String) :=
  match read_namespaced_config_map s (instance_id ++ "-build-status") with
  | .ok d => .ok ((lookupKV d "status").getD "unknown", lookupKV d "error")
  | .error e =>
    if e.status = 404 then
      match read_namespaced_config_map s (instance_id ++ "-config") with
      | .ok _ => .ok ("completed", none)
      | .error _ => .error 404
    else .error e.status

/-- Python `delete_instance` (`DELETE /instances/{id}`): 404 when the
workload is absent, otherwise the deletion cascade and a 200 Deleted
answer. -/
def delete_instance (s : St) (instance_id : String) : St × Nat :=
  if get_instance_status s instance_id = "NotFound" then (s, 404)
  else
    match delete_instance_resources s instance_id with
    | (s1, none) => (s1, 200)
    | (s1, some e) => (s1, e.status)

/-! ## Object-creation and deletion trace of one instance

The five orchestrator objects owned by an instance (configuration record,
workspace claim, workload, service, ingress); build-status and build-logs
records and the shared user claim are not among them. -/

def coreObjName (iid : String) : Kind → String → Bool
  | .configMap, n => n == iid ++ "-config"
  | .pvc, n => n == iid ++ "-workspace"
  | .deployment, n => n == iid
  | .service, n => n == iid ++ "-service"
  | .ingress, n => n == iid ++ "-ingress"

def isInstanceCoreObj (iid : String) : Event → Bool
  | .created k n => coreObjName iid k n
  | .deleted k n => coreObjName iid k n

/-- The subtrace of create/delete events touching the five core objects of
one instance. -/
def coreEvents (iid : String) (tr : List Event) : List Event :=
  tr.filter (isInstanceCoreObj iid)

/-- A user id every derived object name of which satisfies the orchestrator
naming rule: nonempty, lowercase alphanumerics and hyphens only, and at most
41 characters — 63 minus the longest derived suffix, `-<8 hex>-build-status`
(22 characters). -/
def goodUserId (uid : String) : Bool :=
  1 ≤ uid.length && uid.length ≤ 41 && uid.data.all isDns1123LabelChar

/-- An uploaded archive that is not a gzip-compressed tar containing a
devcontainer.json somewhere: either not a gzip tar at all, or one without a
devcontainer.json. -/
def archiveLacksDevcontainer : Archive → Bool
  | .notGzipTar => true
  | .entries fs => (find_devcontainer_json fs).isNone

/-- The message of the exception `build_and_deploy_workspace` records for
such an archive. -/
def archiveFailureMsg : Archive → String
  | .notGzipTar => TAR_READ_ERROR_MSG
  | .entries _ => "No devcontainer.json found in workspace"

end DevcontainerApi

namespace DevcontainerApi

/-! # General lemmas -/

theorem hexDigitCharBoundedLowerHex : ∀ m, m < 16 →
    isLowerHexChar (match m with
      | 0 => '0' | 1 => '1' | 2 => '2' | 3 => '3' | 4 => '4'
      | 5 => '5' | 6 => '6' | 7 => '7' | 8 => '8' | 9 => '9'
      | 10 => 'a' | 11 => 'b' | 12 => 'c' | 13 => 'd' | 14 => 'e'
      | _ => 'f') = true := by decide

theorem isLowerHexChar_hexDigitChar (n : Nat) :
    isLowerHexChar (hexDigitChar n) = true := by
  unfold hexDigitChar
  exact hexDigitCharBoundedLowerHex (n % 16) (Nat.mod_lt _ (by decide))

theorem bytesToHexChars_length (bs : List Nat) :
    (bytesToHexChars bs).length = 2 * bs.length := by
  induction bs with
  | nil => rfl
  | cons b bs ih =>
    simp [bytesToHexChars, byteToHexChars, ih]
    omega

theorem bytesToHex_length (bs : List Nat) :
    (bytesToHex bs).length = 2 * bs.length := by
  simpa [bytesToHex, String.length] using bytesToHexChars_length bs

theorem mem_bytesToHexChars_lowerHex (bs : List Nat) (c : Char)
    (h : c ∈ bytesToHexChars bs) : isLowerHexChar c = true := by
  induction bs with
  | nil => simp [bytesToHexChars] at h
  | cons b bs ih =>
    simp only [bytesToHexChars, byteToHexChars, List.mem_append, List.mem_cons,
      List.mem_singleton, List.not_mem_nil, or_false] at h
    rcases h with (h | h) | h
    · exact h ▸ isLowerHexChar_hexDigitChar _
    · exact h ▸ isLowerHexChar_hexDigitChar _
    · exact ih h

theorem strNe_of_length_ne {a b : String} (h : a.length ≠ b.length) : a ≠ b :=
  fun hc => h (hc ▸ rfl)

theorem strBeq_false_of_length_ne {a b : String} (h : a.length ≠ b.length) :
    (a == b) = false :=
  beq_eq_false_iff_ne.mpr (strNe_of_length_ne h)

theorem generate_instance_id_length (uid : String) (bs : List Nat)
    (h : bs.length = 4) : (generate_instance_id uid bs).length = uid.length + 9 := by
  simp [generate_instance_id, String.length_append, bytesToHex_length, h]
  rfl

theorem hexDigitCharBoundedLabelChar : ∀ m, m < 16 →
    isDns1123LabelChar (match m with
      | 0 => '0' | 1 => '1' | 2 => '2' | 3 => '3' | 4 => '4'
      | 5 => '5' | 6 => '6' | 7 => '7' | 8 => '8' | 9 => '9'
      | 10 => 'a' | 11 => 'b' | 12 => 'c' | 13 => 'd' | 14 => 'e'
      | _ => 'f') = true := by decide

theorem isDns1123LabelChar_hexDigitChar (n : Nat) :
    isDns1123LabelChar (hexDigitChar n) = true := by
  unfold hexDigitChar
  exact hexDigitCharBoundedLabelChar (n % 16) (Nat.mod_lt _ (by decide))

theorem bytesToHexChars_all_label (bs : List Nat) :
    (bytesToHexChars bs).all isDns1123LabelChar = true := by
  induction bs with
  | nil => rfl
  | cons b bs ih =>
    simp [bytesToHexChars, byteToHexChars, List.all_append, ih,
      isDns1123LabelChar_hexDigitChar]

theorem isValidObjectName_append (u t : String)
    (hu1 : 1 ≤ u.length)
    (hu_all : u.data.all isDns1123LabelChar = true)
    (ht_all : t.data.all isDns1123LabelChar = true)
    (hlen : u.length + t.length ≤ 63) :
    isValidObjectName (u ++ t) = true := by
  simp only [isValidObjectName, String.length_append, String.data_append,
    List.all_append, hu_all, ht_all, Bool.and_true, Bool.and_eq_true,
    decide_eq_true_eq]
  omega

/-- All eight object names derived from a well-formed user id pass the
orchestrator name validation. -/
theorem derived_names_valid (uid : String) (bs : List Nat) (hbs : bs.length = 4)
    (hgood : goodUserId uid = true) :
    isValidObjectName (uid ++ "-shared") = true ∧
    isValidObjectName (generate_instance_id uid bs) = true ∧
    isValidObjectName (generate_instance_id uid bs ++ "-config") = true ∧
    isValidObjectName (generate_instance_id uid bs ++ "-workspace") = true ∧
    isValidObjectName (generate_instance_id uid bs ++ "-service") = true ∧
    isValidObjectName (generate_instance_id uid bs ++ "-ingress") = true ∧
    isValidObjectName (generate_instance_id uid bs ++ "-build-status") = true ∧
    isValidObjectName (generate_instance_id uid bs ++ "-build-logs") = true := by
  simp only [goodUserId, Bool.and_eq_true, decide_eq_true_eq] at hgood
  obtain ⟨⟨hu1, hu41⟩, hu_all⟩ := hgood
  have hiid_len : (generate_instance_id uid bs).length = uid.length + 9 :=
    generate_instance_id_length uid bs hbs
  have hdash : isDns1123LabelChar '-' = true := by decide
  have hiid_all : (generate_instance_id uid bs).data.all isDns1123LabelChar = true := by
    simp [generate_instance_id, String.data_append, List.all_append, hu_all,
      bytesToHex, bytesToHexChars_all_label bs, hdash]
  have hiid1 : 1 ≤ (generate_instance_id uid bs).length := by omega
  refine ⟨?_, ?_, ?_, ?_, ?_, ?_, ?_, ?_⟩
  · exact isValidObjectName_append uid "-shared" hu1 hu_all (by decide)
      (by have h7 : ("-shared" : String).length = 7 := rfl; omega)
  · simp only [isValidObjectName, hiid_all, Bool.and_true, Bool.and_eq_true,
      decide_eq_true_eq, hiid_len]
    omega
  · exact isValidObjectName_append _ "-config" hiid1 hiid_all (by decide)
      (by have h7 : ("-config" : String).length = 7 := rfl; omega)
  · exact isValidObjectName_append _ "-workspace" hiid1 hiid_all (by decide)
      (by have h10 : ("-workspace" : String).length = 10 := rfl; omega)
  · exact isValidObjectName_append _ "-service" hiid1 hiid_all (by decide)
      (by have h8 : ("-service" : String).length = 8 := rfl; omega)
  · exact isValidObjectName_append _ "-ingress" hiid1 hiid_all (by decide)
      (by have h8 : ("-ingress" : String).length = 8 := rfl; omega)
  · exact isValidObjectName_append _ "-build-status" hiid1 hiid_all (by decide)
      (by have h13 : ("-build-status" : String).length = 13 := rfl; omega)
  · exact isValidObjectName_append _ "-build-logs" hiid1 hiid_all (by decide)
      (by have h11 : ("-build-logs" : String).length = 11 := rfl; omega)

theorem findD_setD_self (l : List (String × Data)) (n : String) (d : Data) :
    findD (setD l n d) n = (findD l n).map (fun _ => d) := by
  induction l with
  | nil => rfl
  | cons p rest ih =>
    by_cases h : p.1 = n
    · simp [setD, findD, h]
    · simp [setD, findD, h, ih]

theorem findD_setD_ne (l : List (String × Data)) (n m : String) (d : Data)
    (h : n ≠ m) : findD (setD l n d) m = findD l m := by
  induction l with
  | nil => rfl
  | cons p rest ih =>
    by_cases h1 : p.1 = n
    · simp [setD, findD, h1, fun hc => h (h1 ▸ hc), h]
    · simp [setD, findD, h1, ih]

theorem findD_append_sing_self (l : List (String × Data)) (n : String) (d : Data)
    (h : findD l n = none) : findD (l ++ [(n, d)]) n = some d := by
  induction l with
  | nil => simp [findD]
  | cons p rest ih =>
    by_cases h1 : p.1 = n
    · simp [findD, h1] at h
    · simp [findD, h1] at h ⊢
      exact ih h

theorem findD_append_sing_ne (l : List (String × Data)) (n m : String) (d : Data)
    (h : n ≠ m) : findD (l ++ [(n, d)]) m = findD l m := by
  induction l with
  | nil => simp [findD, h]
  | cons p rest ih =>
    by_cases h1 : p.1 = m
    · simp [findD, h1]
    · simp [findD, h1, ih]

theorem lookupKV_setKV_self (d : Data) (k v : String) :
    lookupKV (setKV d k v) k = some v := by
  induction d with
  | nil => simp [setKV, lookupKV]
  | cons p rest ih =>
    by_cases h : p.1 = k
    · simp [setKV, lookupKV, h]
    · simp [setKV, lookupKV, h, ih]

theorem lookupKV_setKV_ne (d : Data) (k1 k v : String) (h : k1 ≠ k) :
    lookupKV (setKV d k1 v) k = lookupKV d k := by
  induction d with
  | nil => simp [setKV, lookupKV, h]
  | cons p rest ih =>
    by_cases h1 : p.1 = k1
    · simp [setKV, lookupKV, h1, h]
    · simp [setKV, lookupKV, h1, ih]

theorem name_build_status_ne_config (iid : String) :
    iid ++ "-build-status" ≠ iid ++ "-config" :=
  strNe_of_length_ne (by
    have h1 : ("-build-status" : String).length = 13 := rfl
    have h2 : ("-config" : String).length = 7 := rfl
    simp only [String.length_append, h1, h2]
    omega)

theorem name_build_logs_ne_config (iid : String) :
    iid ++ "-build-logs" ≠ iid ++ "-config" :=
  strNe_of_length_ne (by
    have h1 : ("-build-logs" : String).length = 11 := rfl
    have h2 : ("-config" : String).length = 7 := rfl
    simp only [String.length_append, h1, h2]
    omega)

/-- Invariant: whenever the configuration record of the instance exists, its
BASE_IMAGE entry is the default base image. -/
def baseImageInv (iid : String) (s : St) : Prop :=
  ∀ d, findD s.configMaps (iid ++ "-config") = some d →
    lookupKV d "BASE_IMAGE" = some DEFAULT_BASE_IMAGE

theorem baseImageInv_of_configMaps_eq {iid : String} {s s' : St}
    (he : s'.configMaps = s.configMaps) (h : baseImageInv iid s) :
    baseImageInv iid s' := by
  intro d hd
  exact h d (he ▸ hd)

theorem ensure_shared_storage_pvc_configMaps (s : St) (u sz : String) :
    ((ensure_shared_storage_pvc s u sz).1).configMaps = s.configMaps := by
  unfold ensure_shared_storage_pvc read_namespaced_persistent_volume_claim
    create_namespaced_persistent_volume_claim
  by_cases hv : isValidObjectName (u ++ "-shared") = false <;>
    rcases h : findP s.pvcs (u ++ "-shared") with _ | z <;> simp [h, hv]

theorem create_workspace_pvc_configMaps (s : St) (iid sz : String) :
    ((create_workspace_pvc s iid sz).1).configMaps = s.configMaps := by
  unfold create_workspace_pvc create_namespaced_persistent_volume_claim
  by_cases hv : isValidObjectName (iid ++ "-workspace") = false <;>
    rcases h : findP s.pvcs (iid ++ "-workspace") with _ | z <;> simp [h, hv]

theorem create_deployment_configMaps (s : St)
    (iid u mr ml cr cl : String) (img : Option String) (vv : String) :
    ((create_deployment s iid u mr ml cr cl img vv).1).configMaps = s.configMaps := by
  unfold create_deployment create_namespaced_deployment
  by_cases hv : isValidObjectName iid = false <;>
    rcases h : findDep s.deployments iid with _ | z <;> simp [h, hv]

theorem create_service_configMaps (s : St) (iid : String) :
    ((create_service s iid).1).configMaps = s.configMaps := by
  unfold create_service create_namespaced_service
  by_cases hv : isValidObjectName (iid ++ "-service") = false <;>
    cases h : s.services.contains (iid ++ "-service") <;> simp [h, hv]

theorem create_ingress_configMaps (s : St) (iid pp : String) :
    ((create_ingress_for_instance s iid pp).1).configMaps = s.configMaps := by
  unfold create_ingress_for_instance create_namespaced_ingress
  by_cases hv : isValidObjectName (iid ++ "-ingress") = false <;>
    cases h : s.ingresses.contains (iid ++ "-ingress") <;> simp [h, hv]

theorem patchBuildStatus_inv (iid : String) (s : St) (d : Option Data)
    (kvs : List (String × String)) (h : baseImageInv iid s) :
    baseImageInv iid (patchBuildStatus s iid d kvs).1 := by
  cases d with
  | none => simpa [patchBuildStatus] using h
  | some dd =>
    unfold patchBuildStatus patch_namespaced_config_map
    cases hc : (findD s.configMaps (iid ++ "-build-status")).isSome
    · simpa [hc] using h
    · simp only [hc, if_true]
      intro d1 hd1
      have hd2 : findD (setD s.configMaps (iid ++ "-build-status") (setKVs dd kvs))
          (iid ++ "-config") = some d1 := hd1
      rw [findD_setD_ne _ _ _ _ (name_build_status_ne_config iid)] at hd2
      exact h d1 hd2

theorem build_devcontainer_image_inv (iid : String) (s : St)
    (cfgw : Option DevcontainerCfg) (env : BuildEnv) (h : baseImageInv iid s) :
    baseImageInv iid (build_devcontainer_image s iid cfgw env).1 := by
  unfold build_devcontainer_image create_namespaced_config_map
  by_cases h1 : env.dockerOk = false
  · simpa [h1] using h
  · by_cases h2 : env.buildExitCode ≠ 0
    · simpa [h1, h2] using h
    · by_cases hv : isValidObjectName (iid ++ "-build-logs") = false
      · simpa [h1, h2, hv] using h
      · cases hc : (findD s.configMaps (iid ++ "-build-logs")).isSome
        · simp only [h1, h2, hc, hv, if_false, if_true, Bool.false_eq_true, reduceIte]
          simp [h1, h2, hc, hv]
          intro d1 hd1
          rw [findD_append_sing_ne _ _ _ _ (name_build_logs_ne_config iid)] at hd1
          exact h d1 hd1
        · simpa [h1, h2, hc, hv] using h

theorem configMapData_lookup_BASE_IMAGE (tok base : String) (img : Option String)
    (vver : String) (cfg : Option DevcontainerCfg) :
    lookupKV (configMapData tok base img vver cfg) "BASE_IMAGE" = some base := rfl

theorem create_configmap_inv (iid : String) (s : St) (tok : String)
    (img : Option String) (vver : String) (cfg : Option DevcontainerCfg)
    (h : baseImageInv iid s) :
    baseImageInv iid
      (create_configmap s iid tok DEFAULT_BASE_IMAGE img vver cfg).1 := by
  unfold create_configmap create_namespaced_config_map
  by_cases hv : isValidObjectName (iid ++ "-config") = false
  · simpa [hv] using h
  · cases hc : (findD s.configMaps (iid ++ "-config")).isSome
    · have hnone : findD s.configMaps (iid ++ "-config") = none := by
        cases hx : findD s.configMaps (iid ++ "-config") with
        | none => rfl
        | some _ => rw [hx] at hc; simp at hc
      simp only [hc, hv, Bool.false_eq_true, reduceIte]
      intro d1 hd1
      have hd2 : findD (s.configMaps ++ [(iid ++ "-config",
          configMapData tok DEFAULT_BASE_IMAGE img vver cfg)])
          (iid ++ "-config") = some d1 := hd1
      rw [findD_append_sing_self _ _ _ hnone] at hd2
      cases hd2
      exact configMapData_lookup_BASE_IMAGE _ _ _ _ _
    · simpa [hc, hv] using h

/-- The configuration record written by `build_and_deploy_devcontainer`
always carries the default base image: whenever it exists afterwards, its
BASE_IMAGE entry is `ubuntu:22.04`, whatever image the devcontainer JSON
names. -/
theorem build_and_deploy_devcontainer_inv (s : St) (bc : BuildConfig)
    (env : BuildEnv) (h : baseImageInv bc.instance_id s) :
    baseImageInv bc.instance_id (build_and_deploy_devcontainer s bc env) := by
  unfold build_and_deploy_devcontainer
  dsimp only
  rcases h1 : patchBuildStatus s bc.instance_id
      (readBuildStatusSnapshot s bc.instance_id) [("status", "building")] with ⟨s1, d1⟩
  have hi1 : baseImageInv bc.instance_id s1 := by
    have := patchBuildStatus_inv bc.instance_id s
      (readBuildStatusSnapshot s bc.instance_id) [("status", "building")] h
    rwa [h1] at this
  dsimp only
  rcases h2 : build_devcontainer_image s1 bc.instance_id
      (some bc.devcontainer_config) env with ⟨s2, r⟩
  have hi2 : baseImageInv bc.instance_id s2 := by
    have := build_devcontainer_image_inv bc.instance_id s1
      (some bc.devcontainer_config) env hi1
    rwa [h2] at this
  cases r with
  | error e => exact patchBuildStatus_inv _ _ _ _ hi2
  | ok img =>
    dsimp only
    rcases h3 : patchBuildStatus s2 bc.instance_id d1 [("status", "deploying")] with ⟨s3, d2⟩
    have hi3 : baseImageInv bc.instance_id s3 := by
      have := patchBuildStatus_inv bc.instance_id s2 d1 [("status", "deploying")] hi2
      rwa [h3] at this
    dsimp only
    rcases h4 : ensure_shared_storage_pvc s3 bc.user_id bc.shared_storage_size with ⟨s4, e4⟩
    have hi4 : baseImageInv bc.instance_id s4 := by
      have hcm := ensure_shared_storage_pvc_configMaps s3 bc.user_id bc.shared_storage_size
      rw [h4] at hcm
      exact baseImageInv_of_configMaps_eq hcm hi3
    cases e4 with
    | some e => exact patchBuildStatus_inv _ _ _ _ hi4
    | none =>
      dsimp only
      rcases h5 : create_configmap s4 bc.instance_id bc.access_token DEFAULT_BASE_IMAGE
          (some img) bc.vscode_version (some bc.devcontainer_config) with ⟨s5, e5⟩
      have hi5 : baseImageInv bc.instance_id s5 := by
        have := create_configmap_inv bc.instance_id s4 bc.access_token
          (some img) bc.vscode_version (some bc.devcontainer_config) hi4
        rwa [h5] at this
      cases e5 with
      | some e => exact patchBuildStatus_inv _ _ _ _ hi5
      | none =>
        dsimp only
        rcases h6 : create_workspace_pvc s5 bc.instance_id bc.storage_size with ⟨s6, e6⟩
        have hi6 : baseImageInv bc.instance_id s6 := by
          have hcm := create_workspace_pvc_configMaps s5 bc.instance_id bc.storage_size
          rw [h6] at hcm
          exact baseImageInv_of_configMaps_eq hcm hi5
        cases e6 with
        | some e => exact patchBuildStatus_inv _ _ _ _ hi6
        | none =>
          dsimp only
          rcases h7 : create_deployment s6 bc.instance_id bc.user_id bc.memory_request
              bc.memory_limit bc.cpu_request bc.cpu_limit (some img)
              bc.vscode_version with ⟨s7, e7⟩
          have hi7 : baseImageInv bc.instance_id s7 := by
            have hcm := create_deployment_configMaps s6 bc.instance_id bc.user_id
              bc.memory_request bc.memory_limit bc.cpu_request bc.cpu_limit
              (some img) bc.vscode_version
            rw [h7] at hcm
            exact baseImageInv_of_configMaps_eq hcm hi6
          cases e7 with
          | some e => exact patchBuildStatus_inv _ _ _ _ hi7
          | none =>
            dsimp only
            rcases h8 : create_service s7 bc.instance_id with ⟨s8, e8⟩
            have hi8 : baseImageInv bc.instance_id s8 := by
              have hcm := create_service_configMaps s7 bc.instance_id
              rw [h8] at hcm
              exact baseImageInv_of_configMaps_eq hcm hi7
            cases e8 with
            | some e => exact patchBuildStatus_inv _ _ _ _ hi8
            | none =>
              dsimp only
              rcases h9 : create_ingress_for_instance s8 bc.instance_id
                  INSTANCES_PATH_PREFIX with ⟨s9, e9⟩
              have hi9 : baseImageInv bc.instance_id s9 := by
                have hcm := create_ingress_configMaps s8 bc.instance_id INSTANCES_PATH_PREFIX
                rw [h9] at hcm
                exact baseImageInv_of_configMaps_eq hcm hi8
              cases e9 with
              | some e => exact patchBuildStatus_inv _ _ _ _ hi9
              | none => exact patchBuildStatus_inv _ _ _ _ hi9

/-- The configuration record written by `build_and_deploy_workspace` always
carries the default base image, whatever image the devcontainer.json inside
the uploaded archive names. -/
theorem build_and_deploy_workspace_inv (s : St) (bc : WsBuildConfig)
    (env : BuildEnv) (h : baseImageInv bc.instance_id s) :
    baseImageInv bc.instance_id (build_and_deploy_workspace s bc env) := by
  unfold build_and_deploy_workspace
  dsimp only
  rcases h1 : patchBuildStatus s bc.instance_id
      (readBuildStatusSnapshot s bc.instance_id) [("status", "building")] with ⟨s1, d1⟩
  have hi1 : baseImageInv bc.instance_id s1 := by
    have := patchBuildStatus_inv bc.instance_id s
      (readBuildStatusSnapshot s bc.instance_id) [("status", "building")] h
    rwa [h1] at this
  dsimp only
  cases hw : bc.workspace_content with
  | notGzipTar => exact patchBuildStatus_inv _ _ _ _ hi1
  | entries fs =>
    dsimp only
    cases hf : find_devcontainer_json fs with
    | none => exact patchBuildStatus_inv _ _ _ _ hi1
    | some parsed =>
      cases parsed with
      | none => exact patchBuildStatus_inv _ _ _ _ hi1
      | some cfg =>
        dsimp only
        rcases h2 : build_devcontainer_image s1 bc.instance_id none env with ⟨s2, r⟩
        have hi2 : baseImageInv bc.instance_id s2 := by
          have := build_devcontainer_image_inv bc.instance_id s1 none env hi1
          rwa [h2] at this
        cases r with
        | error e => exact patchBuildStatus_inv _ _ _ _ hi2
        | ok img =>
          dsimp only
          rcases h3 : patchBuildStatus s2 bc.instance_id d1 [("status", "deploying")] with ⟨s3, d2⟩
          have hi3 : baseImageInv bc.instance_id s3 := by
            have := patchBuildStatus_inv bc.instance_id s2 d1 [("status", "deploying")] hi2
            rwa [h3] at this
          dsimp only
          rcases h4 : ensure_shared_storage_pvc s3 bc.user_id bc.shared_storage_size with ⟨s4, e4⟩
          have hi4 : baseImageInv bc.instance_id s4 := by
            have hcm := ensure_shared_storage_pvc_configMaps s3 bc.user_id bc.shared_storage_size
            rw [h4] at hcm
            exact baseImageInv_of_configMaps_eq hcm hi3
          cases e4 with
          | some e => exact patchBuildStatus_inv _ _ _ _ hi4
          | none =>
            dsimp only
            rcases h5 : create_configmap s4 bc.instance_id bc.access_token DEFAULT_BASE_IMAGE
                (some img) bc.vscode_version (some cfg) with ⟨s5, e5⟩
            have hi5 : baseImageInv bc.instance_id s5 := by
              have := create_configmap_inv bc.instance_id s4 bc.access_token
                (some img) bc.vscode_version (some cfg) hi4
              rwa [h5] at this
            cases e5 with
            | some e => exact patchBuildStatus_inv _ _ _ _ hi5
            | none =>
              dsimp only
              rcases h6 : create_workspace_pvc s5 bc.instance_id bc.storage_size with ⟨s6, e6⟩
              have hi6 : baseImageInv bc.instance_id s6 := by
                have hcm := create_workspace_pvc_configMaps s5 bc.instance_id bc.storage_size
                rw [h6] at hcm
                exact baseImageInv_of_configMaps_eq hcm hi5
              cases e6 with
              | some e => exact patchBuildStatus_inv _ _ _ _ hi6
              | none =>
                dsimp only
                rcases h7 : create_deployment s6 bc.instance_id bc.user_id bc.memory_request
                    bc.memory_limit bc.cpu_request bc.cpu_limit (some img)
                    bc.vscode_version with ⟨s7, e7⟩
                have hi7 : baseImageInv bc.instance_id s7 := by
                  have hcm := create_deployment_configMaps s6 bc.instance_id bc.user_id
                    bc.memory_request bc.memory_limit bc.cpu_request bc.cpu_limit
                    (some img) bc.vscode_version
                  rw [h7] at hcm
                  exact baseImageInv_of_configMaps_eq hcm hi6
                cases e7 with
                | some e => exact patchBuildStatus_inv _ _ _ _ hi7
                | none =>
                  dsimp only
                  rcases h8 : create_service s7 bc.instance_id with ⟨s8, e8⟩
                  have hi8 : baseImageInv bc.instance_id s8 := by
                    have hcm := create_service_configMaps s7 bc.instance_id
                    rw [h8] at hcm
                    exact baseImageInv_of_configMaps_eq hcm hi7
                  cases e8 with
                  | some e => exact patchBuildStatus_inv _ _ _ _ hi8
                  | none =>
                    dsimp only
                    rcases h9 : create_ingress_for_instance s8 bc.instance_id
                        INSTANCES_PATH_PREFIX with ⟨s9, e9⟩
                    have hi9 : baseImageInv bc.instance_id s9 := by
                      have hcm := create_ingress_configMaps s8 bc.instance_id
                        INSTANCES_PATH_PREFIX
                      rw [h9] at hcm
                      exact baseImageInv_of_configMaps_eq hcm hi8
                    cases e9 with
                    | some e => exact patchBuildStatus_inv _ _ _ _ hi9
                    | none => exact patchBuildStatus_inv _ _ _ _ hi9

/-! # Claim C10 -/

/-- C10: for both build-backed creates, the POST response carries
`base_image = "ubuntu:22.04"` (the default), and the background jobs only
ever write a configuration record whose BASE_IMAGE entry is the default —
whatever image the supplied devcontainer configuration names, it flows only
into `devcontainer_image`, never into the base image. -/
theorem C10_build_backed_base_image_default :
    (∀ (s : St) (uid : String) (dj : Option DevcontainerCfg)
      (ss sss mr ml cr cl vv : String) (sb tb : List Nat)
      (r : VSCodeServerResponse),
      (create_devcontainer_instance s uid dj ss sss mr ml cr cl vv sb tb).2.2.1 = some r →
      r.base_image = DEFAULT_BASE_IMAGE) ∧
    (∀ (s : St) (uid : String) (w : Archive) (ss sss mr ml cr cl vv : String)
      (sb tb : List Nat) (r : VSCodeServerResponse),
      (create_workspace_instance s uid w ss sss mr ml cr cl vv sb tb).2.2.1 = some r →
      r.base_image = DEFAULT_BASE_IMAGE) ∧
    (∀ (s : St) (bc : BuildConfig) (env : BuildEnv),
      baseImageInv bc.instance_id s →
      baseImageInv bc.instance_id (build_and_deploy_devcontainer s bc env)) ∧
    (∀ (s : St) (bc : WsBuildConfig) (env : BuildEnv),
      baseImageInv bc.instance_id s →
      baseImageInv bc.instance_id (build_and_deploy_workspace s bc env)) := by
  refine ⟨?_, ?_, build_and_deploy_devcontainer_inv, build_and_deploy_workspace_inv⟩
  · intro s uid dj ss sss mr ml cr cl vv sb tb r hr
    unfold create_devcontainer_instance at hr
    cases dj with
    | none => simp at hr
    | some cfg =>
      dsimp only at hr
      split at hr
      · simp at hr
      · dsimp only at hr
        injection hr with hfields
        rw [← hfields]
  · intro s uid w ss sss mr ml cr cl vv sb tb r hr
    unfold create_workspace_instance at hr
    dsimp only at hr
    split at hr
    · simp at hr
    · dsimp only at hr
      injection hr with hfields
      rw [← hfields]

theorem C10_witness :
    ((create_devcontainer_instance emptySt "carol"
        (some { image := some "python:3.12" }) "2Gi" "5Gi" "512Mi" "2Gi" "200m"
        "1000m" "1.97.2" [0, 0, 0, 0] (List.range 16)).2.2.1 = some
          { instance_id := "carol-00000000",
            url := "https://vscode.local/instances/carol-00000000?tkn=000102030405060708090a0b0c0d0e0f",
            access_token := "000102030405060708090a0b0c0d0e0f",
            status := "Queued",
            base_image := "ubuntu:22.04",
            devcontainer_image := some "localhost:32000/vscode-devcontainer-carol-00000000:latest",
            build_logs_url := some "https://vscode.local/api/instances/carol-00000000/build-logs" }) ∧
    VSCodeServerResponse.base_image
      { instance_id := "carol-00000000",
        url := "https://vscode.local/instances/carol-00000000?tkn=000102030405060708090a0b0c0d0e0f",
        access_token := "000102030405060708090a0b0c0d0e0f",
        status := "Queued",
        base_image := "ubuntu:22.04",
        devcontainer_image := some "localhost:32000/vscode-devcontainer-carol-00000000:latest",
        build_logs_url := some "https://vscode.local/api/instances/carol-00000000/build-logs" }
      = DEFAULT_BASE_IMAGE ∧
    VSCodeServerResponse.base_image
      { instance_id := "dave-00000000",
        url := "https://vscode.local/instances/dave-00000000?tkn=000102030405060708090a0b0c0d0e0f",
        access_token := "000102030405060708090a0b0c0d0e0f",
        status := "Queued",
        base_image := "ubuntu:22.04",
        devcontainer_image := some "localhost:32000/vscode-devcontainer-dave-00000000:latest",
        build_logs_url := some "https://vscode.local/api/instances/dave-00000000/build-logs" }
      = DEFAULT_BASE_IMAGE ∧
    baseImageInv "x" (build_and_deploy_devcontainer
      ⟨[("x-build-status", [("status", "queued")])], [], [], [], [], []⟩
      { instance_id := "x", user_id := "u",
        devcontainer_config := { image := some "python:3.12" },
        storage_size := "2Gi", shared_storage_size := "5Gi",
        memory_request := "512Mi", memory_limit := "2Gi", cpu_request := "200m",
        cpu_limit := "1000m", vscode_version := "1.97.2", access_token := "t" }
      { dockerOk := true, buildExitCode := 0, buildLogs := [], pushExitCode := 0,
        pushOutput := [], retagExitCode := 0, retagPushExitCode := 0,
        timestamp := "T" }) ∧
    baseImageInv "y" (build_and_deploy_workspace
      ⟨[("y-build-status", [("status", "queued")])], [], [], [], [], []⟩
      { instance_id := "y", user_id := "u",
        workspace_content := .entries [("devcontainer.json",
          some { image := some "python:3.12" })],
        storage_size := "2Gi", shared_storage_size := "5Gi",
        memory_request := "512Mi", memory_limit := "2Gi", cpu_request := "200m",
        cpu_limit := "1000m", vscode_version := "1.97.2", access_token := "t" }
      { dockerOk := true, buildExitCode := 0, buildLogs := [], pushExitCode := 0,
        pushOutput := [], retagExitCode := 0, retagPushExitCode := 0,
        timestamp := "T" }) := by
  refine ⟨by decide, ?_, ?_, ?_, ?_⟩
  · exact C10_build_backed_base_image_default.1 emptySt "carol"
      (some { image := some "python:3.12" }) "2Gi" "5Gi" "512Mi" "2Gi" "200m"
      "1000m" "1.97.2" [0, 0, 0, 0] (List.range 16) _ (by decide)
  · exact C10_build_backed_base_image_default.2.1 emptySt "dave"
      (.entries [("devcontainer.json", some { image := some "python:3.12" })])
      "2Gi" "5Gi" "512Mi" "2Gi" "200m" "1000m" "1.97.2" [0, 0, 0, 0]
      (List.range 16) _ (by decide)
  · exact C10_build_backed_base_image_default.2.2.1
      ⟨[("x-build-status", [("status", "queued")])], [], [], [], [], []⟩
      { instance_id := "x", user_id := "u",
        devcontainer_config := { image := some "python:3.12" },
        storage_size := "2Gi", shared_storage_size := "5Gi",
        memory_request := "512Mi", memory_limit := "2Gi", cpu_request := "200m",
        cpu_limit := "1000m", vscode_version := "1.97.2", access_token := "t" }
      { dockerOk := true, buildExitCode := 0, buildLogs := [], pushExitCode := 0,
        pushOutput := [], retagExitCode := 0, retagPushExitCode := 0,
        timestamp := "T" }
      (fun d hd => Option.noConfusion hd)
  · exact C10_build_backed_base_image_default.2.2.2
      ⟨[("y-build-status", [("status", "queued")])], [], [], [], [], []⟩
      { instance_id := "y", user_id := "u",
        workspace_content := .entries [("devcontainer.json",
          some { image := some "python:3.12" })],
        storage_size := "2Gi", shared_storage_size := "5Gi",
        memory_request := "512Mi", memory_limit := "2Gi", cpu_request := "200m",
        cpu_limit := "1000m", vscode_version := "1.97.2", access_token := "t" }
      { dockerOk := true, buildExitCode := 0, buildLogs := [], pushExitCode := 0,
        pushOutput := [], retagExitCode := 0, retagPushExitCode := 0,
        timestamp := "T" }
      (fun d hd => Option.noConfusion hd)

/-! # Claim C1 -/

/-- C1 (amended): for every instance (of a well-formed user id, i.e. one
whose derived object names the orchestrator accepts), the five core
orchestrator objects are created in the fixed order configuration record,
workspace claim, workload, service, ingress — on the synchronous
simple-create path and on the background build path alike — and deletion
removes ingress, service, workload, then the configuration record (and the
build-logs record), and the workspace claim last: the reverse order except
that the configuration record is deleted before the workspace claim, not
after it. -/
theorem C1_object_creation_deletion_order :
    (∀ (req : VSCodeServerRequest) (bs tok : List Nat),
      validate_base_image req.base_image = true → goodUserId req.user_id = true →
      bs.length = 4 →
      coreEvents (generate_instance_id req.user_id bs)
        ((post_instances_simple emptySt req bs tok).1).trace =
        [.created .configMap (generate_instance_id req.user_id bs ++ "-config"),
         .created .pvc (generate_instance_id req.user_id bs ++ "-workspace"),
         .created .deployment (generate_instance_id req.user_id bs),
         .created .service (generate_instance_id req.user_id bs ++ "-service"),
         .created .ingress (generate_instance_id req.user_id bs ++ "-ingress")]) ∧
    (∀ (uid : String) (cfg : DevcontainerCfg) (ss sss mr ml cr cl vv : String)
      (bs tok : List Nat) (env : BuildEnv),
      env.dockerOk = true → env.buildExitCode = 0 → goodUserId uid = true →
      bs.length = 4 →
      coreEvents (generate_instance_id uid bs)
        (build_and_deploy_devcontainer
          (create_devcontainer_instance emptySt uid (some cfg) ss sss mr ml cr cl vv
            bs tok).1
          ⟨generate_instance_id uid bs, uid, cfg, ss, sss, mr, ml, cr, cl, vv,
            generate_access_token tok⟩ env).trace =
        [.created .configMap (generate_instance_id uid bs ++ "-config"),
         .created .pvc (generate_instance_id uid bs ++ "-workspace"),
         .created .deployment (generate_instance_id uid bs),
         .created .service (generate_instance_id uid bs ++ "-service"),
         .created .ingress (generate_instance_id uid bs ++ "-ingress")]) ∧
    (∀ (uid : String) (bs : List Nat) (d1 d2 : Data) (sz1 sz2 img : String)
      (rep : Option Nat) (tr : List Event),
      bs.length = 4 →
      delete_instance_resources
        ⟨[(generate_instance_id uid bs ++ "-config", d1),
          (generate_instance_id uid bs ++ "-build-logs", d2)],
         [(uid ++ "-shared", sz1), (generate_instance_id uid bs ++ "-workspace", sz2)],
         [(generate_instance_id uid bs, img, rep)],
         [generate_instance_id uid bs ++ "-service"],
         [generate_instance_id uid bs ++ "-ingress"], tr⟩
        (generate_instance_id uid bs) =
      (⟨[], [(uid ++ "-shared", sz1)], [], [], [],
        tr ++ [.deleted .ingress (generate_instance_id uid bs ++ "-ingress"),
               .deleted .service (generate_instance_id uid bs ++ "-service"),
               .deleted .deployment (generate_instance_id uid bs),
               .deleted .configMap (generate_instance_id uid bs ++ "-config"),
               .deleted .configMap (generate_instance_id uid bs ++ "-build-logs"),
               .deleted .pvc (generate_instance_id uid bs ++ "-workspace")]⟩, none) ∧
      coreEvents (generate_instance_id uid bs)
        (tr ++ [.deleted .ingress (generate_instance_id uid bs ++ "-ingress"),
               .deleted .service (generate_instance_id uid bs ++ "-service"),
               .deleted .deployment (generate_instance_id uid bs),
               .deleted .configMap (generate_instance_id uid bs ++ "-config"),
               .deleted .configMap (generate_instance_id uid bs ++ "-build-logs"),
               .deleted .pvc (generate_instance_id uid bs ++ "-workspace")]) =
        coreEvents (generate_instance_id uid bs) tr ++
        [.deleted .ingress (generate_instance_id uid bs ++ "-ingress"),
         .deleted .service (generate_instance_id uid bs ++ "-service"),
         .deleted .deployment (generate_instance_id uid bs),
         .deleted .configMap (generate_instance_id uid bs ++ "-config"),
         .deleted .pvc (generate_instance_id uid bs ++ "-workspace")]) := by
  have hlit1 : ("-shared" : String).length = 7 := rfl
  have hlit2 : ("-workspace" : String).length = 10 := rfl
  have hlit3 : ("-config" : String).length = 7 := rfl
  have hlit4 : ("-build-status" : String).length = 13 := rfl
  have hlit5 : ("-build-logs" : String).length = 11 := rfl
  refine ⟨?_, ?_, ?_⟩
  · intro req bs tok hv hg hbs
    have hlen := generate_instance_id_length req.user_id bs hbs
    obtain ⟨hv1, hv2, hv3, hv4, hv5, hv6, hv7, hv8⟩ :=
      derived_names_valid req.user_id bs hbs hg
    have n1 : ¬(req.user_id ++ "-shared" = generate_instance_id req.user_id bs ++ "-workspace") :=
      strNe_of_length_ne (by simp only [String.length_append, hlen, hlit1, hlit2]; omega)
    have b1 : ((req.user_id ++ "-shared") ==
        (generate_instance_id req.user_id bs ++ "-workspace")) = false :=
      beq_eq_false_iff_ne.mpr n1
    simp [post_instances_simple, create_simple_instance, hv,
      hv1, hv2, hv3, hv4, hv5, hv6,
      ensure_shared_storage_pvc, read_namespaced_persistent_volume_claim,
      create_namespaced_persistent_volume_claim, findP,
      create_configmap, create_namespaced_config_map, findD,
      create_workspace_pvc, n1, emptySt,
      create_deployment, create_namespaced_deployment, findDep,
      create_service, create_namespaced_service,
      create_ingress_for_instance, create_namespaced_ingress, List.contains,
      coreEvents, List.filter, isInstanceCoreObj, coreObjName, b1]
  · intro uid cfg ss sss mr ml cr cl vv bs tok env hdocker hexit hg hbs
    have hlen := generate_instance_id_length uid bs hbs
    obtain ⟨hv1, hv2, hv3, hv4, hv5, hv6, hv7, hv8⟩ :=
      derived_names_valid uid bs hbs hg
    have n1 : ¬(uid ++ "-shared" = generate_instance_id uid bs ++ "-workspace") :=
      strNe_of_length_ne (by simp only [String.length_append, hlen, hlit1, hlit2]; omega)
    have b1 : ((uid ++ "-shared") == (generate_instance_id uid bs ++ "-workspace")) = false :=
      beq_eq_false_iff_ne.mpr n1
    have n2 : ¬(generate_instance_id uid bs ++ "-build-status" =
        generate_instance_id uid bs ++ "-build-logs") :=
      strNe_of_length_ne (by simp only [String.length_append, hlit4, hlit5]; omega)
    have n3 : ¬(generate_instance_id uid bs ++ "-build-status" =
        generate_instance_id uid bs ++ "-config") :=
      strNe_of_length_ne (by simp only [String.length_append, hlit4, hlit3]; omega)
    have n4 : ¬(generate_instance_id uid bs ++ "-build-logs" =
        generate_instance_id uid bs ++ "-config") :=
      strNe_of_length_ne (by simp only [String.length_append, hlit5, hlit3]; omega)
    have b3 : ((generate_instance_id uid bs ++ "-build-status") ==
        (generate_instance_id uid bs ++ "-config")) = false :=
      beq_eq_false_iff_ne.mpr n3
    have b4 : ((generate_instance_id uid bs ++ "-build-logs") ==
        (generate_instance_id uid bs ++ "-config")) = false :=
      beq_eq_false_iff_ne.mpr n4
    simp [create_devcontainer_instance, create_namespaced_config_map, emptySt,
      hv1, hv2, hv3, hv4, hv5, hv6, hv7, hv8,
      build_and_deploy_devcontainer, readBuildStatusSnapshot,
      read_namespaced_config_map, findD, patchBuildStatus, setKVs,
      patch_namespaced_config_map, setD,
      build_devcontainer_image, hdocker, hexit,
      ensure_shared_storage_pvc, read_namespaced_persistent_volume_claim,
      create_namespaced_persistent_volume_claim, findP,
      create_configmap, create_workspace_pvc, n1, n2, n3, n4,
      create_deployment, create_namespaced_deployment, findDep,
      create_service, create_namespaced_service,
      create_ingress_for_instance, create_namespaced_ingress, List.contains,
      coreEvents, List.filter, isInstanceCoreObj, coreObjName, b1, b3, b4]
  · intro uid bs d1 d2 sz1 sz2 img rep tr hbs
    have hlen := generate_instance_id_length uid bs hbs
    have n1 : ¬(uid ++ "-shared" = generate_instance_id uid bs ++ "-workspace") :=
      strNe_of_length_ne (by simp only [String.length_append, hlen, hlit1, hlit2]; omega)
    have n4 : ¬(generate_instance_id uid bs ++ "-build-logs" =
        generate_instance_id uid bs ++ "-config") :=
      strNe_of_length_ne (by simp only [String.length_append, hlit5, hlit3]; omega)
    have n5 : ¬(generate_instance_id uid bs ++ "-config" =
        generate_instance_id uid bs ++ "-build-logs") :=
      fun hc => n4 hc.symm
    have b4 : ((generate_instance_id uid bs ++ "-build-logs") ==
        (generate_instance_id uid bs ++ "-config")) = false :=
      beq_eq_false_iff_ne.mpr n4
    constructor
    · simp [delete_instance_resources, delete_namespaced_ingress,
        delete_namespaced_service, delete_namespaced_deployment, findDep,
        tryDeleteConfigMap, delete_namespaced_config_map, findD, removeD,
        delete_namespaced_persistent_volume_claim, findP, removeP,
        removeS, removeDep, List.contains, n1, n4, n5]
    · simp [coreEvents, List.filter_append, List.filter, isInstanceCoreObj,
        coreObjName, b4]

/-- C1 counterexample to "deletion is the exact reverse": deleting the fully
materialized instance `alice-00000000` removes ingress, service, workload,
configuration record, build-logs record, workspace claim — the configuration
record goes before the workspace claim, so the core-object deletion subtrace
differs from the claimed reverse order (ingress, service, workload, workspace
claim, configuration record). -/
theorem C1_counterexample :
    coreEvents "alice-00000000"
      ((delete_instance_resources
        ⟨[("alice-00000000-config", []), ("alice-00000000-build-logs", [])],
         [("alice-shared", "5Gi"), ("alice-00000000-workspace", "2Gi")],
         [("alice-00000000", "ubuntu:22.04", some 1)],
         ["alice-00000000-service"], ["alice-00000000-ingress"], []⟩
        "alice-00000000").1).trace =
      [.deleted .ingress "alice-00000000-ingress",
       .deleted .service "alice-00000000-service",
       .deleted .deployment "alice-00000000",
       .deleted .configMap "alice-00000000-config",
       .deleted .pvc "alice-00000000-workspace"] ∧
    ([.deleted .ingress "alice-00000000-ingress",
      .deleted .service "alice-00000000-service",
      .deleted .deployment "alice-00000000",
      .deleted .configMap "alice-00000000-config",
      .deleted .pvc "alice-00000000-workspace"] : List Event) ≠
      [.deleted .ingress "alice-00000000-ingress",
       .deleted .service "alice-00000000-service",
       .deleted .deployment "alice-00000000",
       .deleted .pvc "alice-00000000-workspace",
       .deleted .configMap "alice-00000000-config"] :=
  ⟨by decide, by decide⟩

theorem C1_witness :
    coreEvents (generate_instance_id "alice" [0, 0, 0, 0])
      ((post_instances_simple emptySt { user_id := "alice" } [0, 0, 0, 0]
        (List.range 16)).1).trace =
      [.created .configMap (generate_instance_id "alice" [0, 0, 0, 0] ++ "-config"),
       .created .pvc (generate_instance_id "alice" [0, 0, 0, 0] ++ "-workspace"),
       .created .deployment (generate_instance_id "alice" [0, 0, 0, 0]),
       .created .service (generate_instance_id "alice" [0, 0, 0, 0] ++ "-service"),
       .created .ingress (generate_instance_id "alice" [0, 0, 0, 0] ++ "-ingress")] ∧
    coreEvents (generate_instance_id "carol" [0, 0, 0, 0])
      (build_and_deploy_devcontainer
        (create_devcontainer_instance emptySt "carol" (some {}) "2Gi" "5Gi" "512Mi"
          "2Gi" "200m" "1000m" "1.97.2" [0, 0, 0, 0] (List.range 16)).1
        ⟨generate_instance_id "carol" [0, 0, 0, 0], "carol", {}, "2Gi", "5Gi",
          "512Mi", "2Gi", "200m", "1000m", "1.97.2",
          generate_access_token (List.range 16)⟩
        { dockerOk := true, buildExitCode := 0, buildLogs := [], pushExitCode := 0,
          pushOutput := [], retagExitCode := 0, retagPushExitCode := 0,
          timestamp := "T" }).trace =
      [.created .configMap (generate_instance_id "carol" [0, 0, 0, 0] ++ "-config"),
       .created .pvc (generate_instance_id "carol" [0, 0, 0, 0] ++ "-workspace"),
       .created .deployment (generate_instance_id "carol" [0, 0, 0, 0]),
       .created .service (generate_instance_id "carol" [0, 0, 0, 0] ++ "-service"),
       .created .ingress (generate_instance_id "carol" [0, 0, 0, 0] ++ "-ingress")] ∧
    delete_instance_resources
      ⟨[(generate_instance_id "alice" [0, 0, 0, 0] ++ "-config", []),
        (generate_instance_id "alice" [0, 0, 0, 0] ++ "-build-logs", [])],
       [("alice" ++ "-shared", "5Gi"),
        (generate_instance_id "alice" [0, 0, 0, 0] ++ "-workspace", "2Gi")],
       [(generate_instance_id "alice" [0, 0, 0, 0], "ubuntu:22.04", some 1)],
       [generate_instance_id "alice" [0, 0, 0, 0] ++ "-service"],
       [generate_instance_id "alice" [0, 0, 0, 0] ++ "-ingress"], []⟩
      (generate_instance_id "alice" [0, 0, 0, 0]) =
    (⟨[], [("alice" ++ "-shared", "5Gi")], [], [], [],
      [] ++ [.deleted .ingress (generate_instance_id "alice" [0, 0, 0, 0] ++ "-ingress"),
        .deleted .service (generate_instance_id "alice" [0, 0, 0, 0] ++ "-service"),
        .deleted .deployment (generate_instance_id "alice" [0, 0, 0, 0]),
        .deleted .configMap (generate_instance_id "alice" [0, 0, 0, 0] ++ "-config"),
        .deleted .configMap (generate_instance_id "alice" [0, 0, 0, 0] ++ "-build-logs"),
        .deleted .pvc (generate_instance_id "alice" [0, 0, 0, 0] ++ "-workspace")]⟩,
      none) :=
  ⟨C1_object_creation_deletion_order.1 { user_id := "alice" } [0, 0, 0, 0]
    (List.range 16) (by decide) (by decide) (by decide),
   C1_object_creation_deletion_order.2.1 "carol" {} "2Gi" "5Gi" "512Mi" "2Gi"
    "200m" "1000m" "1.97.2" [0, 0, 0, 0] (List.range 16)
    { dockerOk := true, buildExitCode := 0, buildLogs := [], pushExitCode := 0,
      pushOutput := [], retagExitCode := 0, retagPushExitCode := 0,
      timestamp := "T" } rfl rfl (by decide) (by decide),
   (C1_object_creation_deletion_order.2.2 "alice" [0, 0, 0, 0] [] [] "5Gi" "2Gi"
    "ubuntu:22.04" (some 1) [] (by decide)).1⟩

/-! # Claim C7 -/

/-- C7: every generated access token is the lowercase hexadecimal encoding of
the sixteen random bytes — 32 characters, all lowercase hex digits — and
therefore never contains the character `-`. -/
theorem C7_access_token_hex_no_hyphen (tokenBytes : List Nat)
    (h : tokenBytes.length = 16) :
    (generate_access_token tokenBytes).length = 32 ∧
    (∀ c ∈ (generate_access_token tokenBytes).data, isLowerHexChar c = true) ∧
    '-' ∉ (generate_access_token tokenBytes).data := by
  refine ⟨?_, ?_, ?_⟩
  · simp [generate_access_token, bytesToHex_length, h]
  · intro c hc
    exact mem_bytesToHexChars_lowerHex tokenBytes c
      (by simpa [generate_access_token, bytesToHex] using hc)
  · intro hc
    have hmem := mem_bytesToHexChars_lowerHex tokenBytes '-'
      (by simpa [generate_access_token, bytesToHex] using hc)
    exact absurd hmem (by decide)

theorem C7_witness :
    (generate_access_token <|
      List.range 16).length = 32 ∧
    (∀ c ∈ (generate_access_token (List.range 16)).data, isLowerHexChar c = true) ∧
    '-' ∉ (generate_access_token (List.range 16)).data :=
  C7_access_token_hex_no_hyphen (List.range 16) (by decide)

/-! # Claim C5 -/

/-- C5 (amended): a `POST /instances/simple` whose base image fails the
pattern check is rejected by the request-model validation with HTTP 422 (the
FastAPI status for pydantic validation failures), not 400; no object is
created. -/
theorem C5_invalid_base_image_rejected_422 (s : St) (request : VSCodeServerRequest)
    (suffixBytes tokenBytes : List Nat)
    (h : validate_base_image request.base_image = false) :
    post_instances_simple s request suffixBytes tokenBytes = (s, 422, none) := by
  simp [post_instances_simple, h, REQUEST_VALIDATION_ERROR_STATUS]

/-- C5 counterexample to the claimed 400: the literal request of scenario S2
(`user_id = bob`, `base_image = "-bad image"`) fails the pattern and the
response status is 422, not 400. -/
theorem C5_counterexample :
    validate_base_image "-bad image" = false ∧
    (post_instances_simple emptySt
        { user_id := "bob", base_image := "-bad image" }
        [0, 0, 0, 0] (List.range 16)).2.1 = 422 ∧
    (422 : Nat) ≠ 400 :=
  ⟨by decide, rfl, by decide⟩

theorem C5_witness :
    post_instances_simple emptySt
      { user_id := "bob", base_image := "-bad image" }
      [0, 0, 0, 0] (List.range 16) = (emptySt, 422, none) :=
  C5_invalid_base_image_rejected_422 emptySt
    { user_id := "bob", base_image := "-bad image" }
    [0, 0, 0, 0] (List.range 16) (by decide)

/-! # Claim C8 -/

/-- C8: when the build-status record of an instance is absent but its
configuration record exists, `GET /instances/{id}/build-status` answers
status `completed` with no error; when neither record exists it raises
404. -/
theorem C8_build_status_synthesis (s : St) (iid : String)
    (hstatus : findD s.configMaps (iid ++ "-build-status") = none) :
    ((∃ d, findD s.configMaps (iid ++ "-config") = some d) →
      get_build_status s iid = .ok ("completed", none)) ∧
    (findD s.configMaps (iid ++ "-config") = none →
      get_build_status s iid = .error 404) := by
  constructor
  · rintro ⟨d, hd⟩
    simp [get_build_status, read_namespaced_config_map, hstatus, hd]
  · intro hc
    simp [get_build_status, read_namespaced_config_map, hstatus, hc]

theorem C8_witness :
    get_build_status ⟨[("w-config", [("TOKEN", "t")])], [], [], [], [], []⟩ "w" =
      .ok ("completed", none) ∧
    get_build_status emptySt "w" = .error 404 :=
  ⟨(C8_build_status_synthesis ⟨[("w-config", [("TOKEN", "t")])], [], [], [], [], []⟩
      "w" (by decide)).1 ⟨[("TOKEN", "t")], by decide⟩,
   (C8_build_status_synthesis emptySt "w" (by decide)).2 (by decide)⟩

/-! # Claim C9 -/

/-- C9: when the workload of an instance is absent, `DELETE /instances/{id}`
answers 404 and leaves the store untouched, whatever other objects named
after the instance (configuration record, build-status and build-logs
records, workspace claim) still exist. -/
theorem C9_delete_404_when_workload_absent (s : St) (iid : String)
    (h : findDep s.deployments iid = none) :
    delete_instance s iid = (s, 404) := by
  simp [delete_instance, get_instance_status, read_namespaced_deployment_status, h]

theorem C9_witness :
    delete_instance
      ⟨[("carol-00000000-config", []), ("carol-00000000-build-logs", []),
        ("carol-00000000-build-status", [("status", "failed")])],
       [("carol-shared", "5Gi"), ("carol-00000000-workspace", "2Gi")],
       [], ["carol-00000000-service"], ["carol-00000000-ingress"], []⟩
      "carol-00000000" =
    (⟨[("carol-00000000-config", []), ("carol-00000000-build-logs", []),
        ("carol-00000000-build-status", [("status", "failed")])],
       [("carol-shared", "5Gi"), ("carol-00000000-workspace", "2Gi")],
       [], ["carol-00000000-service"], ["carol-00000000-ingress"], []⟩, 404) :=
  C9_delete_404_when_workload_absent _ "carol-00000000" (by decide)

/-! # Claim C3 -/

/-- C3 (amended): when the external build tool exits non-zero, the build
fails with an error carrying the exit code and the store is left unchanged —
in particular the captured build logs are NOT persisted, since the build-logs
record is only created on the success path — and the background job records
the failure, exit code included, in the build-status record. -/
theorem C3_build_nonzero_exit (s : St) (iid : String)
    (cfgw : Option DevcontainerCfg) (bc : BuildConfig) (env : BuildEnv) (d0 : Data)
    (hdocker : env.dockerOk = true) (hexit : env.buildExitCode ≠ 0)
    (hd0 : findD s.configMaps (bc.instance_id ++ "-build-status") = some d0) :
    build_devcontainer_image s iid cfgw env =
      (s, .error ("Build failed with return code " ++ toString env.buildExitCode)) ∧
    (∀ d, findD (build_and_deploy_devcontainer s bc env).configMaps
        (bc.instance_id ++ "-build-status") = some d →
      lookupKV d "status" = some "failed" ∧
      lookupKV d "error" =
        some ("Build failed with return code " ++ toString env.buildExitCode)) := by
  have hbuild : ∀ t : St, build_devcontainer_image t iid cfgw env =
      (t, .error ("Build failed with return code " ++ toString env.buildExitCode)) := by
    intro t
    simp [build_devcontainer_image, hdocker, hexit]
  refine ⟨hbuild s, ?_⟩
  intro d hd
  have hbuild2 : ∀ t : St, build_devcontainer_image t bc.instance_id
      (some bc.devcontainer_config) env =
      (t, .error ("Build failed with return code " ++ toString env.buildExitCode)) := by
    intro t
    simp [build_devcontainer_image, hdocker, hexit]
  simp only [build_and_deploy_devcontainer, readBuildStatusSnapshot,
    read_namespaced_config_map, hd0,
    patchBuildStatus, setKVs, patch_namespaced_config_map, findD_setD_self,
    Option.isSome_some, if_true, Option.map_some', hbuild2] at hd
  simp only [findD_setD_self, hd0, Option.map_some', Option.some.injEq] at hd
  subst hd
  constructor
  · rw [lookupKV_setKV_ne _ _ _ _ (by decide), lookupKV_setKV_self]
  · rw [lookupKV_setKV_self]

/-- C3 counterexample to "logs are still returned and persisted": a full
devcontainer create whose build exits with code 2.  The endpoint schedules
exactly the shown build config; after the background job runs, the
build-status record carries `failed` with the exit code in the error — but
the `carol-00000000-build-logs` record does not exist: the captured logs
were discarded, not persisted. -/
theorem C3_counterexample :
    (create_devcontainer_instance emptySt "carol" (some ({} : DevcontainerCfg))
        "2Gi" "5Gi" "512Mi" "2Gi" "200m" "1000m" "1.97.2"
        [0, 0, 0, 0] (List.range 16)).2.2.2 =
      some { instance_id := "carol-00000000", user_id := "carol",
             devcontainer_config := {}, storage_size := "2Gi",
             shared_storage_size := "5Gi", memory_request := "512Mi",
             memory_limit := "2Gi", cpu_request := "200m", cpu_limit := "1000m",
             vscode_version := "1.97.2",
             access_token := "000102030405060708090a0b0c0d0e0f" } ∧
    findD (build_and_deploy_devcontainer
        (create_devcontainer_instance emptySt "carol" (some ({} : DevcontainerCfg))
          "2Gi" "5Gi" "512Mi" "2Gi" "200m" "1000m" "1.97.2"
          [0, 0, 0, 0] (List.range 16)).1
        { instance_id := "carol-00000000", user_id := "carol",
          devcontainer_config := {}, storage_size := "2Gi",
          shared_storage_size := "5Gi", memory_request := "512Mi",
          memory_limit := "2Gi", cpu_request := "200m", cpu_limit := "1000m",
          vscode_version := "1.97.2",
          access_token := "000102030405060708090a0b0c0d0e0f" }
        { dockerOk := true, buildExitCode := 2, buildLogs := ["step 1 done"],
          pushExitCode := 0, pushOutput := [], retagExitCode := 0,
          retagPushExitCode := 0, timestamp := "T" }).configMaps
      "carol-00000000-build-logs" = none ∧
    (findD (build_and_deploy_devcontainer
        (create_devcontainer_instance emptySt "carol" (some ({} : DevcontainerCfg))
          "2Gi" "5Gi" "512Mi" "2Gi" "200m" "1000m" "1.97.2"
          [0, 0, 0, 0] (List.range 16)).1
        { instance_id := "carol-00000000", user_id := "carol",
          devcontainer_config := {}, storage_size := "2Gi",
          shared_storage_size := "5Gi", memory_request := "512Mi",
          memory_limit := "2Gi", cpu_request := "200m", cpu_limit := "1000m",
          vscode_version := "1.97.2",
          access_token := "000102030405060708090a0b0c0d0e0f" }
        { dockerOk := true, buildExitCode := 2, buildLogs := ["step 1 done"],
          pushExitCode := 0, pushOutput := [], retagExitCode := 0,
          retagPushExitCode := 0, timestamp := "T" }).configMaps
      "carol-00000000-build-status").map
        (fun d => (lookupKV d "status", lookupKV d "error")) =
      some (some "failed", some "Build failed with return code 2") := by
  exact ⟨by decide, by decide, by decide⟩

theorem C3_witness :
    build_devcontainer_image ⟨[("x-build-status", [])], [], [], [], [], []⟩ "x" none
      { dockerOk := true, buildExitCode := 7, buildLogs := [], pushExitCode := 0,
        pushOutput := [], retagExitCode := 0, retagPushExitCode := 0,
        timestamp := "T" } =
      (⟨[("x-build-status", [])], [], [], [], [], []⟩,
       .error "Build failed with return code 7") ∧
    (∀ d, findD (build_and_deploy_devcontainer
        ⟨[("x-build-status", [])], [], [], [], [], []⟩
        { instance_id := "x", user_id := "u", devcontainer_config := {},
          storage_size := "", shared_storage_size := "", memory_request := "",
          memory_limit := "", cpu_request := "", cpu_limit := "",
          vscode_version := "", access_token := "" }
        { dockerOk := true, buildExitCode := 7, buildLogs := [], pushExitCode := 0,
          pushOutput := [], retagExitCode := 0, retagPushExitCode := 0,
          timestamp := "T" }).configMaps ("x" ++ "-build-status") = some d →
      lookupKV d "status" = some "failed" ∧
      lookupKV d "error" = some "Build failed with return code 7") :=
  C3_build_nonzero_exit ⟨[("x-build-status", [])], [], [], [], [], []⟩ "x" none
    { instance_id := "x", user_id := "u", devcontainer_config := {},
      storage_size := "", shared_storage_size := "", memory_request := "",
      memory_limit := "", cpu_request := "", cpu_limit := "",
      vscode_version := "", access_token := "" }
    { dockerOk := true, buildExitCode := 7, buildLogs := [], pushExitCode := 0,
      pushOutput := [], retagExitCode := 0, retagPushExitCode := 0,
      timestamp := "T" }
    [] rfl (by decide) (by decide)

/-! # Claim C4 -/

/-- C4 (amended): a `POST /instances/workspace` whose archive is not a gzip
tar containing a devcontainer.json — whether not a gzip tar at all or one
without the file — does NOT fail synchronously: the endpoint answers 201
with status Queued and schedules the background job with the uploaded
bytes; only that job fails, leaving the build-status record at `failed`
with the corresponding error (the tar read error, or
`No devcontainer.json found in workspace`). -/
theorem C4_workspace_archive_validated_async (s : St) (uid : String)
    (w : Archive) (env : BuildEnv)
    (ss sss mr ml cr cl vv : String) (sb tb : List Nat)
    (hfresh : findD s.configMaps (generate_instance_id uid sb ++ "-build-status") = none)
    (hname : isValidObjectName (generate_instance_id uid sb ++ "-build-status") = true)
    (hlack : archiveLacksDevcontainer w = true) :
    (create_workspace_instance s uid w ss sss mr ml cr cl vv sb tb).2.1 = 201 ∧
    ((create_workspace_instance s uid w ss sss mr ml cr cl vv sb tb).2.2.1.map
      (fun r => r.status)) = some "Queued" ∧
    (create_workspace_instance s uid w ss sss mr ml cr cl vv sb tb).2.2.2 =
      some ⟨generate_instance_id uid sb, uid, w, ss, sss, mr, ml, cr, cl, vv,
        generate_access_token tb⟩ ∧
    (∀ d, findD (build_and_deploy_workspace
        (create_workspace_instance s uid w ss sss mr ml cr cl vv sb tb).1
        ⟨generate_instance_id uid sb, uid, w, ss, sss, mr, ml, cr, cl, vv,
          generate_access_token tb⟩ env).configMaps
        (generate_instance_id uid sb ++ "-build-status") = some d →
      lookupKV d "status" = some "failed" ∧
      lookupKV d "error" = some (archiveFailureMsg w)) := by
  refine ⟨?_, ?_, ?_, ?_⟩
  · simp [create_workspace_instance, create_namespaced_config_map, hfresh, hname]
  · simp [create_workspace_instance, create_namespaced_config_map, hfresh, hname]
  · simp [create_workspace_instance, create_namespaced_config_map, hfresh, hname]
  · intro d hd
    cases w with
    | notGzipTar =>
      simp [create_workspace_instance, create_namespaced_config_map, hfresh, hname,
        build_and_deploy_workspace, readBuildStatusSnapshot,
        read_namespaced_config_map, findD_append_sing_self,
        patchBuildStatus, setKVs, patch_namespaced_config_map,
        findD_setD_self] at hd
      subst hd
      refine ⟨?_, ?_⟩
      · rw [lookupKV_setKV_ne _ _ _ _ (by decide), lookupKV_setKV_self]
      · simp only [archiveFailureMsg]
        rw [lookupKV_setKV_self]
    | entries fs =>
      have hmiss : find_devcontainer_json fs = none := by
        simpa [archiveLacksDevcontainer, Option.isNone_iff_eq_none] using hlack
      simp [create_workspace_instance, create_namespaced_config_map, hfresh, hname,
        build_and_deploy_workspace, readBuildStatusSnapshot,
        read_namespaced_config_map, findD_append_sing_self,
        patchBuildStatus, setKVs, patch_namespaced_config_map, findD_setD_self,
        hmiss] at hd
      subst hd
      refine ⟨?_, ?_⟩
      · rw [lookupKV_setKV_ne _ _ _ _ (by decide), lookupKV_setKV_self]
      · simp only [archiveFailureMsg]
        rw [lookupKV_setKV_self]

/-- C4 counterexample to the claimed synchronous 400: both the S5 upload — a
valid tar.gz containing only `README.md` — and an upload that is not a gzip
tar at all are answered 201 Queued. -/
theorem C4_counterexample :
    (create_workspace_instance emptySt "dave" (.entries [("README.md", none)])
        "2Gi" "5Gi" "512Mi" "2Gi" "200m" "1000m" "1.97.2"
        [0, 0, 0, 0] (List.range 16)).2.1 = 201 ∧
    (create_workspace_instance emptySt "dave" .notGzipTar
        "2Gi" "5Gi" "512Mi" "2Gi" "200m" "1000m" "1.97.2"
        [0, 0, 0, 0] (List.range 16)).2.1 = 201 ∧
    (201 : Nat) ≠ 400 :=
  ⟨by decide, by decide, by decide⟩

theorem C4_witness :
    ((create_workspace_instance emptySt "dave" (.entries [("README.md", none)])
        "2Gi" "5Gi" "512Mi" "2Gi" "200m" "1000m" "1.97.2"
        [0, 0, 0, 0] (List.range 16)).2.1 = 201 ∧
    ((create_workspace_instance emptySt "dave" (.entries [("README.md", none)])
        "2Gi" "5Gi" "512Mi" "2Gi" "200m" "1000m" "1.97.2"
        [0, 0, 0, 0] (List.range 16)).2.2.1.map (fun r => r.status)) = some "Queued" ∧
    (create_workspace_instance emptySt "dave" (.entries [("README.md", none)])
        "2Gi" "5Gi" "512Mi" "2Gi" "200m" "1000m" "1.97.2"
        [0, 0, 0, 0] (List.range 16)).2.2.2 =
      some ⟨generate_instance_id "dave" [0, 0, 0, 0], "dave",
        .entries [("README.md", none)], "2Gi", "5Gi", "512Mi", "2Gi", "200m",
        "1000m", "1.97.2", generate_access_token (List.range 16)⟩ ∧
    (∀ d, findD (build_and_deploy_workspace
        (create_workspace_instance emptySt "dave" (.entries [("README.md", none)])
          "2Gi" "5Gi" "512Mi" "2Gi" "200m" "1000m" "1.97.2"
          [0, 0, 0, 0] (List.range 16)).1
        ⟨generate_instance_id "dave" [0, 0, 0, 0], "dave",
          .entries [("README.md", none)], "2Gi", "5Gi", "512Mi", "2Gi", "200m",
          "1000m", "1.97.2", generate_access_token (List.range 16)⟩
        { dockerOk := true, buildExitCode := 0, buildLogs := [], pushExitCode := 0,
          pushOutput := [], retagExitCode := 0, retagPushExitCode := 0,
          timestamp := "T" }).configMaps
        (generate_instance_id "dave" [0, 0, 0, 0] ++ "-build-status") = some d →
      lookupKV d "status" = some "failed" ∧
      lookupKV d "error" =
        some (archiveFailureMsg (.entries [("README.md", none)])))) ∧
    ((create_workspace_instance emptySt "erin" .notGzipTar
        "2Gi" "5Gi" "512Mi" "2Gi" "200m" "1000m" "1.97.2"
        [0, 0, 0, 0] (List.range 16)).2.1 = 201 ∧
    ((create_workspace_instance emptySt "erin" .notGzipTar
        "2Gi" "5Gi" "512Mi" "2Gi" "200m" "1000m" "1.97.2"
        [0, 0, 0, 0] (List.range 16)).2.2.1.map (fun r => r.status)) = some "Queued" ∧
    (create_workspace_instance emptySt "erin" .notGzipTar
        "2Gi" "5Gi" "512Mi" "2Gi" "200m" "1000m" "1.97.2"
        [0, 0, 0, 0] (List.range 16)).2.2.2 =
      some ⟨generate_instance_id "erin" [0, 0, 0, 0], "erin", .notGzipTar,
        "2Gi", "5Gi", "512Mi", "2Gi", "200m", "1000m", "1.97.2",
        generate_access_token (List.range 16)⟩ ∧
    (∀ d, findD (build_and_deploy_workspace
        (create_workspace_instance emptySt "erin" .notGzipTar
          "2Gi" "5Gi" "512Mi" "2Gi" "200m" "1000m" "1.97.2"
          [0, 0, 0, 0] (List.range 16)).1
        ⟨generate_instance_id "erin" [0, 0, 0, 0], "erin", .notGzipTar,
          "2Gi", "5Gi", "512Mi", "2Gi", "200m", "1000m", "1.97.2",
          generate_access_token (List.range 16)⟩
        { dockerOk := true, buildExitCode := 0, buildLogs := [], pushExitCode := 0,
          pushOutput := [], retagExitCode := 0, retagPushExitCode := 0,
          timestamp := "T" }).configMaps
        (generate_instance_id "erin" [0, 0, 0, 0] ++ "-build-status") = some d →
      lookupKV d "status" = some "failed" ∧
      lookupKV d "error" = some (archiveFailureMsg .notGzipTar))) :=
  ⟨C4_workspace_archive_validated_async emptySt "dave"
    (.entries [("README.md", none)])
    { dockerOk := true, buildExitCode := 0, buildLogs := [], pushExitCode := 0,
      pushOutput := [], retagExitCode := 0, retagPushExitCode := 0,
      timestamp := "T" }
    "2Gi" "5Gi" "512Mi" "2Gi" "200m" "1000m" "1.97.2"
    [0, 0, 0, 0] (List.range 16) (by decide) (by decide) (by decide),
   C4_workspace_archive_validated_async emptySt "erin" .notGzipTar
    { dockerOk := true, buildExitCode := 0, buildLogs := [], pushExitCode := 0,
      pushOutput := [], retagExitCode := 0, retagPushExitCode := 0,
      timestamp := "T" }
    "2Gi" "5Gi" "512Mi" "2Gi" "200m" "1000m" "1.97.2"
    [0, 0, 0, 0] (List.range 16) (by decide) (by decide) (by decide)⟩

/-! # Claim C2 -/

/-- C2: evaluation at the failing input.  Instance `alice-00000000` has all
its objects except the ingress (already removed by hand).  The delete
endpoint answers 200 — but the store is returned completely unchanged: the
404 raised by the ingress deletion aborts the single try block of
`delete_instance_resources`, so the service, workload, configuration record,
build-logs record and workspace claim all survive, contradicting the claim
that each deletion step tolerates NotFound independently and the remaining
objects are removed. -/
theorem C2_ingress_absent_delete_skips_rest :
    delete_instance
      ⟨[("alice-00000000-config", [("TOKEN", "t")]),
        ("alice-00000000-build-logs", [("logs", "l")])],
       [("alice-shared", "5Gi"), ("alice-00000000-workspace", "2Gi")],
       [("alice-00000000", "ubuntu:22.04", some 1)],
       ["alice-00000000-service"], [], []⟩
      "alice-00000000" =
    (⟨[("alice-00000000-config", [("TOKEN", "t")]),
        ("alice-00000000-build-logs", [("logs", "l")])],
       [("alice-shared", "5Gi"), ("alice-00000000-workspace", "2Gi")],
       [("alice-00000000", "ubuntu:22.04", some 1)],
       ["alice-00000000-service"], [], []⟩, 200) ∧
    ["alice-00000000-service"] ≠ ([] : List String) := by
  exact ⟨by decide, by decide⟩

/-! # Claim C6 -/

/-- C6 (amended): the generated instance identifier is
`user_id ++ "-" ++ eight lowercase hex characters`; but the service itself
never validates user ids: the naming service rejects nothing, a well-formed
user id is accepted (201), and a user id yielding an orchestrator-invalid
name is not rejected by validation — the request fails only when the
orchestrator refuses the first object create (the shared claim), which the
service surfaces as HTTP 500, the upstream-error status, with no object
created. -/
theorem C6_instance_id_shape_no_validation :
    (∀ (uid : String) (bs : List Nat), bs.length = 4 →
      generate_instance_id uid bs = uid ++ "-" ++ bytesToHex bs ∧
      (bytesToHex bs).length = 8 ∧
      ∀ c ∈ (bytesToHex bs).data, isLowerHexChar c = true) ∧
    (∀ (uid : String) (bs tok : List Nat), bs.length = 4 → goodUserId uid = true →
      (post_instances_simple emptySt { user_id := uid } bs tok).2.1 = 201) ∧
    (∀ (uid : String) (bs tok : List Nat),
      isValidObjectName (uid ++ "-shared") = false →
      post_instances_simple emptySt { user_id := uid } bs tok =
        (emptySt, 500, none)) := by
  refine ⟨?_, ?_, ?_⟩
  · intro uid bs h
    refine ⟨rfl, by simp [bytesToHex_length, h], ?_⟩
    intro c hc
    exact mem_bytesToHexChars_lowerHex bs c (by simpa [bytesToHex] using hc)
  · intro uid bs tok h hg
    have hlen := generate_instance_id_length uid bs h
    obtain ⟨hn1, hn2, hn3, hn4, hn5, hn6, hn7, hn8⟩ :=
      derived_names_valid uid bs h hg
    have hsh : ("-shared" : String).length = 7 := rfl
    have hws : ("-workspace" : String).length = 10 := rfl
    have h1 : ¬(uid ++ "-shared" = generate_instance_id uid bs ++ "-workspace") :=
      strNe_of_length_ne (by simp [String.length_append, hlen, hsh, hws]; try omega)
    have hv : validate_base_image DEFAULT_BASE_IMAGE = true := by decide
    simp [post_instances_simple, create_simple_instance, VSCodeServerRequest.base_image,
      hv, hn1, hn2, hn3, hn4, hn5, hn6,
      ensure_shared_storage_pvc, read_namespaced_persistent_volume_claim,
      create_namespaced_persistent_volume_claim, findP,
      create_configmap, create_namespaced_config_map, findD,
      create_workspace_pvc, h1, emptySt,
      create_deployment, create_namespaced_deployment, findDep,
      create_service, create_namespaced_service,
      create_ingress_for_instance, create_namespaced_ingress, List.contains]
  · intro uid bs tok hbad
    have hv : validate_base_image DEFAULT_BASE_IMAGE = true := by decide
    simp [post_instances_simple, create_simple_instance, VSCodeServerRequest.base_image,
      hv, ensure_shared_storage_pvc, read_namespaced_persistent_volume_claim,
      create_namespaced_persistent_volume_claim, findP, hbad, emptySt]

/-- C6 counterexample to the claimed rejection: the user id `Invalid_USER!`
violates the orchestrator naming rules (uppercase letters, underscore,
exclamation mark), yet the service performs no validation — the naming
service maps it straight to `Invalid_USER!-00000000`, and the create request
fails only when the orchestrator refuses the shared-claim create, surfaced
as HTTP 500 (the upstream-error status), not as the 400 InvalidRequest
rejection the spec assigns to request validation. -/
theorem C6_counterexample :
    (¬ ∀ c ∈ ("Invalid_USER!" : String).data,
        (c.isLower || c.isDigit || c = '-') = true) ∧
    generate_instance_id "Invalid_USER!" [0, 0, 0, 0] = "Invalid_USER!-00000000" ∧
    post_instances_simple emptySt { user_id := "Invalid_USER!" }
        [0, 0, 0, 0] (List.range 16) = (emptySt, 500, none) ∧
    (500 : Nat) ≠ 400 :=
  ⟨by decide, by decide, by decide, by decide⟩

theorem C6_witness :
    (generate_instance_id "alice" [18, 52, 171, 205] =
        "alice" ++ "-" ++ bytesToHex [18, 52, 171, 205] ∧
      (bytesToHex [18, 52, 171, 205]).length = 8 ∧
      ∀ c ∈ (bytesToHex [18, 52, 171, 205]).data, isLowerHexChar c = true) ∧
    (post_instances_simple emptySt { user_id := "alice" }
        [18, 52, 171, 205] (List.range 16)).2.1 = 201 ∧
    post_instances_simple emptySt { user_id := "UPPER" }
        [0, 0, 0, 0] (List.range 16) = (emptySt, 500, none) :=
  ⟨C6_instance_id_shape_no_validation.1 "alice" [18, 52, 171, 205] (by decide),
   C6_instance_id_shape_no_validation.2.1 "alice" [18, 52, 171, 205]
     (List.range 16) (by decide) (by decide),
   C6_instance_id_shape_no_validation.2.2 "UPPER" [0, 0, 0, 0]
     (List.range 16) (by decide)⟩

end DevcontainerApi
